import Mathlib

/-!
# svnrdump dump editor (`subversion/svnrdump/dump_editor.c`)

A shallow embedding of the delta editor that `svnrdump` uses to write one
revision as dumpfile text, followed by theorems about it.

Modelling conventions

* `const char *` is `Option String` where the source tests the pointer or may
  pass `NULL`, and `String` where the editor API always supplies a string.
* `svn_revnum_t` (a C `long`) is `Int`.
* An `apr_hash_t` keyed by C strings is an association list with distinct keys;
  `apr_hash_first`/`apr_hash_next` enumerate it front to back.  A hash pointer
  that may be `NULL` is an `Option`.
* The output stream `eb->stream` is the `String` of everything written so far;
  writes to it always succeed.  The temporary delta file `eb->delta_file` is the
  `String` of its contents, and its size is the UTF-8 byte size of that string.
* Batons live in a heap (`edit_session`): a baton pointer is an index into
  `dirs` or `files`.  Dereferencing an index that is not allocated (undefined
  behaviour in C) makes the operation return `none`.
* Pools and the RA session are not represented.
* Functions of other files that the editor calls are parameters
  (`svn_property_kind2`, `svn_rdump__normalize_props`) or are modelled from the
  specification, which their documentation comment then says.
-/

namespace DumpEditor

/-! ## Library pieces used by the editor -/

/-- Modelled from the spec: `SVN_INVALID_REVNUM` of `svn_types.h`, the
"unspecified revision" marker; the header is not part of the sources at hand. -/
def SVN_INVALID_REVNUM : Int := -1

/-- Modelled from the spec: `SVN_IS_VALID_REVNUM` of `svn_types.h`; a revision
number is valid when it is not negative. -/
def SVN_IS_VALID_REVNUM (n : Int) : Bool := decide (0 ≤ n)

/-- The macro `ARE_VALID_COPY_ARGS(p,r)`: `((p) && SVN_IS_VALID_REVNUM(r))`. -/
def ARE_VALID_COPY_ARGS (p : Option String) (r : Int) : Bool :=
  p.isSome && SVN_IS_VALID_REVNUM r

/-- Modelled from the spec: `svn_relpath_canonicalize`, which the editor uses to
"remove leading slashes" so that header paths are relative (no leading slash). -/
def svn_relpath_canonicalize (path : String) : String :=
  ⟨path.data.dropWhile (fun c => c == '/')⟩

/-- Modelled from the spec: `svn_fspath__canonicalize`, the absolute form of a
path: a single leading slash in front of the relative path. -/
def svn_fspath__canonicalize (path : String) : String :=
  "/" ++ svn_relpath_canonicalize path

/-- Modelled from the spec: `svn_relpath_basename`, the last component of a
relative path (what follows the last slash). -/
def svn_relpath_basename (path : String) : String :=
  ⟨(path.data.reverse.takeWhile (fun c => c != '/')).reverse⟩

/-- Modelled from the spec: `svn_relpath_join`, joining a base path and a
component with one slash; an empty side yields the other side. -/
def svn_relpath_join (base component : String) : String :=
  if base = "" then component
  else if component = "" then base
  else base ++ "/" ++ component

/-- What a `%s` conversion prints for a C string argument: the string, or
`(null)` for a `NULL` pointer (the behaviour of `apr_vformatter`). -/
def fmt_s (s : Option String) : String :=
  match s with
  | some str => str
  | none => "(null)"

/-- An `apr_hash_t` with C-string keys: an association list with distinct keys. -/
abbrev apr_hash_t (α : Type) := List (String × α)

/-- `apr_hash_get(ht, key, APR_HASH_KEY_STRING)`: the value stored under `key`,
or `NULL`. -/
def apr_hash_get {α : Type} : apr_hash_t α → String → Option α
  | [], _ => none
  | (k, v) :: rest, key => if k = key then some v else apr_hash_get rest key

/-- `apr_hash_set(ht, key, APR_HASH_KEY_STRING, val)`: a `NULL` value removes the
entry; otherwise the value of an existing entry is overwritten, or a new entry
is added. -/
def apr_hash_set {α : Type} : apr_hash_t α → String → Option α → apr_hash_t α
  | [], _, none => []
  | [], key, some v => [(key, v)]
  | (k, v) :: rest, key, val =>
    if k = key then
      match val with
      | none => rest
      | some w => (k, w) :: rest
    else (k, v) :: apr_hash_set rest key val

/-- `svn_hash__clear(hash)`: remove every entry. -/
def svn_hash__clear {α : Type} (_hash : apr_hash_t α) : apr_hash_t α := []

/-- The keys of a hash, in enumeration order. -/
def apr_hash_keys {α : Type} (ht : apr_hash_t α) : List String := ht.map Prod.fst

/-! ## Dumpfile header names (`svn_repos.h`) -/

/-- Modelled from the spec: dumpfile header `Node-path`. -/
def SVN_REPOS_DUMPFILE_NODE_PATH : String := "Node-path"
/-- Modelled from the spec: dumpfile header `Node-kind`. -/
def SVN_REPOS_DUMPFILE_NODE_KIND : String := "Node-kind"
/-- Modelled from the spec: dumpfile header `Node-action`. -/
def SVN_REPOS_DUMPFILE_NODE_ACTION : String := "Node-action"
/-- Modelled from the spec: dumpfile header `Node-copyfrom-rev`. -/
def SVN_REPOS_DUMPFILE_NODE_COPYFROM_REV : String := "Node-copyfrom-rev"
/-- Modelled from the spec: dumpfile header `Node-copyfrom-path`. -/
def SVN_REPOS_DUMPFILE_NODE_COPYFROM_PATH : String := "Node-copyfrom-path"
/-- Modelled from the spec: dumpfile header `Text-delta`. -/
def SVN_REPOS_DUMPFILE_TEXT_DELTA : String := "Text-delta"
/-- Modelled from the spec: dumpfile header `Text-delta-base-md5`. -/
def SVN_REPOS_DUMPFILE_TEXT_DELTA_BASE_MD5 : String := "Text-delta-base-md5"
/-- Modelled from the spec: dumpfile header `Text-content-length`. -/
def SVN_REPOS_DUMPFILE_TEXT_CONTENT_LENGTH : String := "Text-content-length"
/-- Modelled from the spec: dumpfile header `Text-content-md5`. -/
def SVN_REPOS_DUMPFILE_TEXT_CONTENT_MD5 : String := "Text-content-md5"

/-- Modelled from the spec: dumpfile header `Prop-delta`. -/
def SVN_REPOS_DUMPFILE_PROP_DELTA : String := "Prop-delta"
/-- Modelled from the spec: dumpfile header `Prop-content-length`. -/
def SVN_REPOS_DUMPFILE_PROP_CONTENT_LENGTH : String := "Prop-content-length"
/-- The dumpfile header `Content-length` of `svn_repos.h`, which only
`do_dump_props` writes. -/
def SVN_REPOS_DUMPFILE_CONTENT_LENGTH : String := "Content-length"

/-! ## Data model -/

/-- The node kinds of `svn_node_kind_t`. -/
inductive svn_node_kind_t where
  | svn_node_none
  | svn_node_file
  | svn_node_dir
  | svn_node_unknown
  deriving DecidableEq, Repr

/-- The node actions of `enum svn_node_action`. -/
inductive svn_node_action where
  | svn_node_action_change
  | svn_node_action_add
  | svn_node_action_delete
  | svn_node_action_replace
  deriving DecidableEq, Repr

open svn_node_kind_t svn_node_action

/-- The `struct dir_baton`.  `parent_dir_baton` is an index into the heap of
directory batons; `deleted_entries` maps each path to delete to this baton. -/
structure dir_baton where
  parent_dir_baton : Option Nat
  added : Bool
  abspath : String
  copyfrom_path : Option String
  copyfrom_rev : Int
  is_copy : Bool
  deleted_entries : apr_hash_t Nat
  props : Option (apr_hash_t String)
  deleted_props : Option (apr_hash_t String)
  deriving DecidableEq, Repr

/-- The `struct file_baton`.  `pb` is an index into the heap of directory
batons; `delta_file` is `none` for a `NULL` file pointer. -/
structure file_baton where
  pb : Nat
  path : String
  props : Option (apr_hash_t String)
  deleted_props : Option (apr_hash_t String)
  copyfrom_path : Option String
  copyfrom_rev : Int
  is_copy : Bool
  delta_file : Option Unit
  base_checksum : Option String
  deriving DecidableEq, Repr

/-- The `struct dump_edit_baton`: the output written so far, the contents of the
temporary delta file, the base checksum and the revision being dumped. -/
structure dump_edit_baton where
  stream : String
  delta_file : String
  base_checksum : Option String
  current_revision : Int
  deriving DecidableEq, Repr

/-- The memory of one edit: the edit baton and the allocated directory and file
batons. -/
structure edit_session where
  eb : dump_edit_baton
  dirs : List dir_baton
  files : List file_baton
  deriving DecidableEq, Repr

/-! ## The editor -/

/-- The function `make_dir_baton`.  With a parent, the path is canonicalized as
an absolute path (a `NULL` path there is an invalid call); without one the
directory is the root `/`.  `apr_pcalloc` zeroes the remaining fields. -/
def make_dir_baton (path : Option String) (copyfrom_path : Option String)
    (copyfrom_rev : Int) (parent_dir_baton : Option Nat) (added : Bool) :
    Option dir_baton :=
  let abspath : Option String :=
    match parent_dir_baton with
    | some _ => path.map svn_fspath__canonicalize
    | none => some "/"
  let copyfrom_path := copyfrom_path.map svn_relpath_canonicalize
  match abspath with
  | none => none
  | some abspath =>
    some { parent_dir_baton := parent_dir_baton
           abspath := abspath
           copyfrom_path := copyfrom_path
           copyfrom_rev := copyfrom_rev
           added := added
           deleted_entries := []
           is_copy := false
           props := none
           deleted_props := none }

/-- The function `dump_node`, returning the stream after the writes.  The first
argument bounds the depth of nested calls; `none` means the bound was reached. -/
def dump_node : Nat → String → Option String → svn_node_kind_t → svn_node_action →
    Option (apr_hash_t String) → Option (apr_hash_t String) → Bool →
    Option String → Int → Option String
  | 0, _, _, _, _, _, _, _, _, _ => none
  | depth + 1, stream, path, kind, action, props, deleted_props, is_copy,
      copyfrom_path, copyfrom_rev =>
    let path := path.map svn_relpath_canonicalize
    let copyfrom_path := copyfrom_path.map svn_relpath_canonicalize
    let stream := stream ++ (SVN_REPOS_DUMPFILE_NODE_PATH ++ ": " ++ fmt_s path ++ "\n")
    let stream :=
      if kind = svn_node_file then
        stream ++ (SVN_REPOS_DUMPFILE_NODE_KIND ++ ": file\n")
      else if kind = svn_node_dir then
        stream ++ (SVN_REPOS_DUMPFILE_NODE_KIND ++ ": dir\n")
      else stream
    match action with
    | svn_node_action_change =>
      some (stream ++ (SVN_REPOS_DUMPFILE_NODE_ACTION ++ ": change\n"))
    | svn_node_action_replace =>
      if !is_copy then
        some (stream ++ (SVN_REPOS_DUMPFILE_NODE_ACTION ++ ": replace\n"))
      else
        dump_node depth (stream ++ (SVN_REPOS_DUMPFILE_NODE_ACTION ++ ": delete\n\n"))
          path kind svn_node_action_add props deleted_props is_copy
          copyfrom_path copyfrom_rev
    | svn_node_action_delete =>
      some (stream ++ (SVN_REPOS_DUMPFILE_NODE_ACTION ++ ": delete\n") ++ "\n\n")
    | svn_node_action_add =>
      some (stream ++ (SVN_REPOS_DUMPFILE_NODE_ACTION ++ ": add\n")
        ++ (SVN_REPOS_DUMPFILE_NODE_COPYFROM_REV ++ ": " ++ toString copyfrom_rev ++ "\n"
            ++ SVN_REPOS_DUMPFILE_NODE_COPYFROM_PATH ++ ": " ++ fmt_s copyfrom_path ++ "\n"))

/-- The nesting bound given to `dump_node` by the editor callbacks: the call
itself and the one nested call of the replace-with-copy case. -/
def dump_node_depth : Nat := 2

/-- The function `open_root`: a baton for `/` with no parent, not added. -/
def open_root (_base_revision : Int) (s : edit_session) : Option (edit_session × Nat) :=
  match make_dir_baton none none SVN_INVALID_REVNUM none false with
  | none => none
  | some root_baton => some ({ s with dirs := s.dirs ++ [root_baton] }, s.dirs.length)

/-- The function `delete_entry`: `path` is set in the parent's
`deleted_entries`, with the parent baton as value. -/
def delete_entry (path : String) (_revision : Int) (parent_baton : Nat)
    (s : edit_session) : Option edit_session :=
  match s.dirs[parent_baton]? with
  | none => none
  | some pb =>
    let pb := { pb with
      deleted_entries := apr_hash_set pb.deleted_entries path (some parent_baton) }
    some { s with dirs := s.dirs.set parent_baton pb }

/-- The function `add_directory`.  The lookup of `path` in the parent's
`deleted_entries` is made and its result is not used. -/
def add_directory (path : String) (parent_baton : Nat) (copyfrom_path : Option String)
    (copyfrom_rev : Int) (s : edit_session) : Option (edit_session × Nat) :=
  match s.dirs[parent_baton]? with
  | none => none
  | some pb =>
    match make_dir_baton (some path) copyfrom_path copyfrom_rev (some parent_baton) true with
    | none => none
    | some new_db =>
      let _val := apr_hash_get pb.deleted_entries path
      let new_db := { new_db with is_copy := ARE_VALID_COPY_ARGS copyfrom_path copyfrom_rev }
      some ({ s with dirs := s.dirs ++ [new_db] }, s.dirs.length)

/-- The function `open_directory`: the copy source is derived from the parent's
when the parent has a valid one. -/
def open_directory (path : String) (parent_baton : Nat) (_base_revision : Int)
    (s : edit_session) : Option (edit_session × Nat) :=
  match s.dirs[parent_baton]? with
  | none => none
  | some pb =>
    let copy : Option String × Int :=
      if ARE_VALID_COPY_ARGS pb.copyfrom_path pb.copyfrom_rev then
        (pb.copyfrom_path.map (fun p => svn_relpath_join p (svn_relpath_basename path)),
         pb.copyfrom_rev)
      else (none, SVN_INVALID_REVNUM)
    match make_dir_baton (some path) copy.1 copy.2 (some parent_baton) false with
    | none => none
    | some new_db => some ({ s with dirs := s.dirs ++ [new_db] }, s.dirs.length)

/-- The loop of `close_directory` over the deleted entries: one `dump_node`
call per key. -/
def dump_deleted_entries : List String → String → Option String
  | [], stream => some stream
  | path :: rest, stream =>
    match dump_node dump_node_depth stream (some path) svn_node_unknown
        svn_node_action_delete none none false none SVN_INVALID_REVNUM with
    | none => none
    | some stream => dump_deleted_entries rest stream

/-- The function `close_directory`: the directory's own record, then the
deleted entries, then `deleted_entries` is cleared. -/
def close_directory (dir_baton : Nat) (s : edit_session) : Option edit_session :=
  match s.dirs[dir_baton]? with
  | none => none
  | some db =>
    match dump_node dump_node_depth s.eb.stream (some db.abspath) svn_node_dir
        svn_node_action_change db.props db.deleted_props db.is_copy
        db.copyfrom_path db.copyfrom_rev with
    | none => none
    | some stream =>
      match dump_deleted_entries (apr_hash_keys db.deleted_entries) stream with
      | none => none
      | some stream =>
        let db := { db with deleted_entries := svn_hash__clear db.deleted_entries }
        some { s with
          eb := { s.eb with stream := stream },
          dirs := s.dirs.set dir_baton db }

/-- The function `add_file`: only `is_copy` records the copy arguments; the
other fields keep the zeroes of `apr_pcalloc`. -/
def add_file (path : String) (parent_baton : Nat) (copyfrom_path : Option String)
    (copyfrom_rev : Int) (s : edit_session) : Option (edit_session × Nat) :=
  match s.dirs[parent_baton]? with
  | none => none
  | some _pb =>
    let fb : file_baton :=
      { pb := parent_baton
        path := path
        props := none
        deleted_props := none
        copyfrom_path := none
        copyfrom_rev := 0
        is_copy := ARE_VALID_COPY_ARGS copyfrom_path copyfrom_rev
        delta_file := none
        base_checksum := none }
    some ({ s with files := s.files ++ [fb] }, s.files.length)

/-- The function `open_file`: the copy source is derived from the parent's when
the parent has a valid one; `is_copy` stays false. -/
def open_file (path : String) (parent_baton : Nat) (_ancestor_revision : Int)
    (s : edit_session) : Option (edit_session × Nat) :=
  match s.dirs[parent_baton]? with
  | none => none
  | some pb =>
    let copy : Option String × Int :=
      if ARE_VALID_COPY_ARGS pb.copyfrom_path pb.copyfrom_rev then
        (pb.copyfrom_path.map (fun p => svn_relpath_join p (svn_relpath_basename path)),
         pb.copyfrom_rev)
      else (none, 0)
    let fb : file_baton :=
      { pb := parent_baton
        path := path
        props := none
        deleted_props := none
        copyfrom_path := copy.1
        copyfrom_rev := copy.2
        is_copy := false
        delta_file := none
        base_checksum := none }
    some ({ s with files := s.files ++ [fb] }, s.files.length)

/-- The function `close_file`: the node record, the text headers, the contents
of the delta file, two newlines; the delta file is truncated. -/
def close_file (file_baton : Nat) (text_checksum : Option String) (s : edit_session) :
    Option edit_session :=
  match s.files[file_baton]? with
  | none => none
  | some fb =>
    match s.dirs[fb.pb]? with
    | none => none
    | some pb =>
      let eb := s.eb
      let val := apr_hash_get pb.deleted_entries fb.path
      match dump_node dump_node_depth eb.stream (some fb.path) svn_node_file
          (if val.isSome then svn_node_action_replace else svn_node_action_add)
          fb.props fb.deleted_props fb.is_copy
          (if fb.is_copy then fb.copyfrom_path else none)
          (if fb.is_copy then fb.copyfrom_rev else SVN_INVALID_REVNUM) with
      | none => none
      | some stream =>
        let stream := stream ++ (SVN_REPOS_DUMPFILE_TEXT_DELTA ++ ": true\n")
        let size := eb.delta_file.utf8ByteSize
        let stream :=
          match eb.base_checksum with
          | some c => stream ++ (SVN_REPOS_DUMPFILE_TEXT_DELTA_BASE_MD5 ++ ": " ++ c ++ "\n")
          | none => stream
        let stream :=
          stream ++ (SVN_REPOS_DUMPFILE_TEXT_CONTENT_LENGTH ++ ": " ++ toString size ++ "\n")
        let stream :=
          stream ++ (SVN_REPOS_DUMPFILE_TEXT_CONTENT_MD5 ++ ": " ++ fmt_s text_checksum ++ "\n")
        let stream := stream ++ eb.delta_file
        let stream := stream ++ "\n\n"
        some { s with eb := { eb with stream := stream, delta_file := "" } }

/-- A session right after `svn_rdump__get_dump_editor`: nothing written, an
empty delta file, no base checksum, no batons. -/
def new_session (revision : Int) : edit_session :=
  { eb := { stream := "", delta_file := "", base_checksum := none,
            current_revision := revision }
    dirs := []
    files := [] }

/-! ## Property changes, property blocks and text deltas -/

/-- The property kinds of `svn_prop_kind_t`. -/
inductive svn_prop_kind_t where
  | svn_prop_entry_kind
  | svn_prop_wc_kind
  | svn_prop_regular_kind
  deriving DecidableEq, Repr

open svn_prop_kind_t

/-- The function `change_dir_prop`.  The classifier `svn_property_kind2` lives
outside this file and is a parameter.  A name that is not regular returns at
once; otherwise a value is set in `props` and a missing value sets the empty
string in `deleted_props`, each hash being made on first use. -/
def change_dir_prop (svn_property_kind2 : String → svn_prop_kind_t) (parent_baton : Nat)
    (name : String) (value : Option String) (s : edit_session) : Option edit_session :=
  if svn_property_kind2 name ≠ svn_prop_regular_kind then some s
  else
    match s.dirs[parent_baton]? with
    | none => none
    | some db =>
      match value with
      | some v =>
        let props := match db.props with
          | some h => h
          | none => []
        let db := { db with props := some (apr_hash_set props name (some v)) }
        some { s with dirs := s.dirs.set parent_baton db }
      | none =>
        let deleted_props := match db.deleted_props with
          | some h => h
          | none => []
        let db := { db with deleted_props := some (apr_hash_set deleted_props name (some "")) }
        some { s with dirs := s.dirs.set parent_baton db }

/-- The function `change_file_prop`: as `change_dir_prop`, on a file baton. -/
def change_file_prop (svn_property_kind2 : String → svn_prop_kind_t) (file_baton : Nat)
    (name : String) (value : Option String) (s : edit_session) : Option edit_session :=
  if svn_property_kind2 name ≠ svn_prop_regular_kind then some s
  else
    match s.files[file_baton]? with
    | none => none
    | some fb =>
      match value with
      | some v =>
        let props := match fb.props with
          | some h => h
          | none => []
        let fb := { fb with props := some (apr_hash_set props name (some v)) }
        some { s with files := s.files.set file_baton fb }
      | none =>
        let deleted_props := match fb.deleted_props with
          | some h => h
          | none => []
        let fb := { fb with deleted_props := some (apr_hash_set deleted_props name (some "")) }
        some { s with files := s.files.set file_baton fb }

/-- A sequence of `change_dir_prop` calls on one directory baton, each call a
name and an optional value. -/
def change_dir_prop_seq (svn_property_kind2 : String → svn_prop_kind_t) (parent_baton : Nat) :
    List (String × Option String) → edit_session → Option edit_session
  | [], s => some s
  | (name, value) :: rest, s =>
    match change_dir_prop svn_property_kind2 parent_baton name value s with
    | none => none
    | some s1 => change_dir_prop_seq svn_property_kind2 parent_baton rest s1

/-- A sequence of `change_file_prop` calls on one file baton. -/
def change_file_prop_seq (svn_property_kind2 : String → svn_prop_kind_t) (file_baton : Nat) :
    List (String × Option String) → edit_session → Option edit_session
  | [], s => some s
  | (name, value) :: rest, s =>
    match change_file_prop svn_property_kind2 file_baton name value s with
    | none => none
    | some s1 => change_file_prop_seq svn_property_kind2 file_baton rest s1

/-- The value of the last call in a sequence that gives `name` a value. -/
def last_value (name : String) (calls : List (String × Option String)) : Option String :=
  (calls.filterMap (fun c => if c.1 = name then c.2 else none)).getLast?

/-- Whether some call in a sequence removes `name` (carries no value). -/
def has_removal (name : String) (calls : List (String × Option String)) : Bool :=
  calls.any (fun c => decide (c.1 = name) && c.2.isNone)

/-- The two property maps of a baton after a sequence of property changes: the
common effect of `change_dir_prop` and `change_file_prop` on `props` and
`deleted_props`. -/
def prop_maps_after (svn_property_kind2 : String → svn_prop_kind_t) :
    List (String × Option String) →
    Option (apr_hash_t String) × Option (apr_hash_t String) →
    Option (apr_hash_t String) × Option (apr_hash_t String)
  | [], maps => maps
  | (name, value) :: rest, (props, deleted_props) =>
    if svn_property_kind2 name ≠ svn_prop_regular_kind then
      prop_maps_after svn_property_kind2 rest (props, deleted_props)
    else
      match value with
      | some v =>
        prop_maps_after svn_property_kind2 rest
          (some (apr_hash_set (props.getD []) name (some v)), deleted_props)
      | none =>
        prop_maps_after svn_property_kind2 rest
          (props, some (apr_hash_set (deleted_props.getD []) name (some "")))

/-- A classifier for the examples: names starting with `svn:entry:` or `svn:wc:`
are entry and working-copy properties, every other name is regular. -/
def sample_property_kind (name : String) : svn_prop_kind_t :=
  if "svn:entry:".data.isPrefixOf name.data then svn_prop_entry_kind
  else if "svn:wc:".data.isPrefixOf name.data then svn_prop_wc_kind
  else svn_prop_regular_kind

/-- Modelled from the spec: `svn_hash_write_incremental`, the property-block
writer, which is not part of the sources at hand: one name/value pair
(`K len`, name, `V len`, value) per property of `hash`, one named tombstone
(`D len`, name) per property of `oldhash`, then the terminator line. -/
def svn_hash_write_incremental (hash oldhash : apr_hash_t String) (terminator : String) :
    String :=
  String.join (hash.map (fun e =>
      "K " ++ toString e.1.utf8ByteSize ++ "\n" ++ e.1 ++ "\n"
      ++ "V " ++ toString e.2.utf8ByteSize ++ "\n" ++ e.2 ++ "\n"))
  ++ String.join (oldhash.map (fun e =>
      "D " ++ toString e.1.utf8ByteSize ++ "\n" ++ e.1 ++ "\n"))
  ++ terminator ++ "\n"

/-- The function `get_props_content`, returning the header and the content.  The
normalizer `svn_rdump__normalize_props` lives outside this file and is a
parameter; its failure is returned. -/
def get_props_content (svn_rdump__normalize_props : apr_hash_t String → Option (apr_hash_t String))
    (props deleted_props : apr_hash_t String) : Option (String × String) :=
  match svn_rdump__normalize_props props with
  | none => none
  | some normal_props =>
    let content := svn_hash_write_incremental normal_props deleted_props "PROPS-END"
    let header := SVN_REPOS_DUMPFILE_PROP_DELTA ++ ": true\n"
    let buf := SVN_REPOS_DUMPFILE_PROP_CONTENT_LENGTH ++ ": "
      ++ toString content.utf8ByteSize ++ "\n"
    some (header ++ buf, content)

/-- The function `do_dump_props`, which no editor callback calls.  It returns
the property string, the stream, the two hashes and the trigger variable
(`none` for a `NULL` trigger pointer) after the call. -/
def do_dump_props (svn_rdump__normalize_props : apr_hash_t String → Option (apr_hash_t String))
    (propstring : Option String) (stream : String) (props deleted_props : apr_hash_t String)
    (trigger_var : Option Bool) (dump_data_too : Bool) :
    Option (Option String × String × apr_hash_t String × apr_hash_t String × Option Bool) :=
  if trigger_var = some false then
    some (propstring, stream, props, deleted_props, trigger_var)
  else
    match get_props_content svn_rdump__normalize_props props deleted_props with
    | none => none
    | some (header, content) =>
      let stream := stream ++ header
      if dump_data_too then
        let stream := stream ++ (SVN_REPOS_DUMPFILE_CONTENT_LENGTH ++ ": "
          ++ toString content.utf8ByteSize ++ "\n\n")
        let stream := stream ++ content
        let stream := stream ++ "\n\n"
        some (some content, stream, svn_hash__clear props, svn_hash__clear deleted_props,
          trigger_var.map (fun _ => false))
      else
        some (some content, stream, props, deleted_props, trigger_var)

/-- The `struct handler_baton`: the svndiff encoder made by `apply_textdelta`,
kept as the file its output stream is bound to (`none` for a `NULL` file, whose
stream discards what is written). -/
structure handler_baton where
  apply_baton : Option Unit
  deriving DecidableEq, Repr

/-- The function `apply_textdelta`: an encoder is bound to a stream over the
file baton's `delta_file`, and the base checksum is stored in the file baton. -/
def apply_textdelta (file_baton : Nat) (base_checksum : Option String) (s : edit_session) :
    Option (edit_session × handler_baton) :=
  match s.files[file_baton]? with
  | none => none
  | some fb =>
    let hb : handler_baton := { apply_baton := fb.delta_file }
    let fb := { fb with base_checksum := base_checksum }
    some ({ s with files := s.files.set file_baton fb }, hb)

/-! ## Delta windows and the fetch functions -/

/-- The function `window_handler`: the window (`none` for the final `NULL`
window) is forwarded to the encoder made by `apply_textdelta`, whose error is
returned.  The encoder `apply_handler` lives outside this file and is a
parameter giving the bytes it writes for a window (`none` when it fails); the
bytes go to the file its stream is bound to, and a stream made over a `NULL`
file discards them. -/
def window_handler (apply_handler : Option String → Option String) (window : Option String)
    (baton : handler_baton) (s : edit_session) : Option edit_session :=
  match apply_handler window with
  | none => none
  | some bytes =>
    match baton.apply_baton with
    | none => some s
    | some _ => some { s with eb := { s.eb with delta_file := s.eb.delta_file ++ bytes } }

/-- An encoder for the examples: it writes the window as it is, and nothing
for the final window. -/
def sample_encoder (window : Option String) : Option String :=
  match window with
  | some data => some data
  | none => some ""

/-- The value of a C `long` (64 bits, two's complement) for an integer. -/
def long_wrap (n : Int) : Int := (n + 2 ^ 63) % 2 ^ 64 - 2 ^ 63

/-- Modelled from the spec: the error code `SVN_ERR_FS_NOT_FOUND` of
`svn_error_codes.h`, by which the data source reports "not found". -/
def SVN_ERR_FS_NOT_FOUND : Int := 160013

/-- The RA session as the fetch functions use it: the three calls made on it,
each returning its result or the `apr_err` code of its error.  The session is
the external data source and is a parameter of the fetch functions. -/
structure svn_ra_session_t where
  svn_ra_get_file : String → Int → Except Int (String × apr_hash_t String)
  svn_ra_check_path : String → Int → Except Int svn_node_kind_t
  svn_ra_get_dir2 : String → Int → Except Int (apr_hash_t String)

/-- The kinds of `svn_kind_t`. -/
inductive svn_kind_t where
  | svn_kind_none
  | svn_kind_file
  | svn_kind_dir
  | svn_kind_symlink
  | svn_kind_unknown
  deriving DecidableEq, Repr

open svn_kind_t

/-- Modelled from the spec: `svn__kind_from_node_kind`, the kind of a node as a
file, a directory or absent; it is not part of the sources at hand. -/
def svn__kind_from_node_kind (kind : svn_node_kind_t) (is_symlink : Bool) : svn_kind_t :=
  match kind with
  | svn_node_none => svn_kind_none
  | svn_node_file => if is_symlink then svn_kind_symlink else svn_kind_file
  | svn_node_dir => svn_kind_dir
  | svn_node_unknown => svn_kind_unknown

/-- Modelled from the spec: `svn_categorize_props` as `fetch_props_func` uses it,
keeping the regular properties of a directory so that no entry or working-copy
property leaks. -/
def svn_categorize_props (svn_property_kind2 : String → svn_prop_kind_t)
    (props : apr_hash_t String) : apr_hash_t String :=
  props.filter (fun e => decide (svn_property_kind2 e.1 = svn_prop_regular_kind))

/-- The function `fetch_base_func`, returning the file name (`none` for `NULL`)
or the error.  `unique_name` is the name of the temporary file that
`svn_stream_open_unique` makes; making and closing that file always succeed. -/
def fetch_base_func (ra_session : svn_ra_session_t) (unique_name : String)
    (eb : dump_edit_baton) (path : String) (base_revision : Int) :
    Except Int (Option String) :=
  let path :=
    match path.data with
    | '/' :: rest => String.mk rest
    | _ => path
  let base_revision :=
    if !SVN_IS_VALID_REVNUM base_revision then long_wrap (eb.current_revision - 1)
    else base_revision
  match ra_session.svn_ra_get_file path base_revision with
  | Except.error err =>
    if err = SVN_ERR_FS_NOT_FOUND then Except.ok none
    else Except.error err
  | Except.ok _ => Except.ok (some unique_name)

/-- The function `fetch_props_func`, returning the properties or the error. -/
def fetch_props_func (ra_session : svn_ra_session_t)
    (svn_property_kind2 : String → svn_prop_kind_t) (eb : dump_edit_baton) (path : String)
    (base_revision : Int) : Except Int (apr_hash_t String) :=
  let path :=
    match path.data with
    | '/' :: rest => String.mk rest
    | _ => path
  let base_revision :=
    if !SVN_IS_VALID_REVNUM base_revision then long_wrap (eb.current_revision - 1)
    else base_revision
  match ra_session.svn_ra_check_path path base_revision with
  | Except.error err => Except.error err
  | Except.ok node_kind =>
    if node_kind = svn_node_file then
      match ra_session.svn_ra_get_file path base_revision with
      | Except.error err => Except.error err
      | Except.ok r => Except.ok r.2
    else if node_kind = svn_node_dir then
      match ra_session.svn_ra_get_dir2 path base_revision with
      | Except.error err => Except.error err
      | Except.ok props => Except.ok (svn_categorize_props svn_property_kind2 props)
    else Except.ok []

/-- The function `fetch_kind_func`, returning the kind or the error. -/
def fetch_kind_func (ra_session : svn_ra_session_t) (eb : dump_edit_baton) (path : String)
    (base_revision : Int) : Except Int svn_kind_t :=
  let path :=
    match path.data with
    | '/' :: rest => String.mk rest
    | _ => path
  let base_revision :=
    if !SVN_IS_VALID_REVNUM base_revision then long_wrap (eb.current_revision - 1)
    else base_revision
  match ra_session.svn_ra_check_path path base_revision with
  | Except.error err => Except.error err
  | Except.ok node_kind => Except.ok (svn__kind_from_node_kind node_kind false)

/-- A data source for the examples: revision 2 holds the file `a.txt` with the
content `hello` and the directory `d`; a path that is absent makes `get_file`
fail with `SVN_ERR_FS_NOT_FOUND`; revision 9 is out of reach, error 170000. -/
def sample_ra_session : svn_ra_session_t :=
  { svn_ra_get_file := fun path rev =>
      if rev = 9 then Except.error 170000
      else if rev = 2 ∧ path = "a.txt" then Except.ok ("hello", [("color", "red")])
      else Except.error SVN_ERR_FS_NOT_FOUND
    svn_ra_check_path := fun path rev =>
      if rev = 9 then Except.error 170000
      else if rev = 2 ∧ path = "a.txt" then Except.ok svn_node_file
      else if rev = 2 ∧ path = "d" then Except.ok svn_node_dir
      else Except.ok svn_node_none
    svn_ra_get_dir2 := fun path rev =>
      if rev = 2 ∧ path = "d" then
        Except.ok [("svn:entry:committed-rev", "2"), ("svn:ignore", "*.o")]
      else Except.error SVN_ERR_FS_NOT_FOUND }

/-! ## Reading the output as lines -/

/-- The pieces of a character sequence between newline characters. -/
def split_lines : List Char → List (List Char)
  | [] => [[]]
  | c :: cs =>
    if c = '\n' then [] :: split_lines cs
    else
      match split_lines cs with
      | [] => [[c]]
      | l :: ls => (c :: l) :: ls

/-- The lines of a text; a dumpfile header is one such line. -/
def text_lines (text : String) : List String := (split_lines text.data).map String.mk

/-! ## Example sessions -/

/-- The session `open_root` produces from `new_session 3`: only the root
directory baton, at index 0. -/
def root_session : edit_session :=
  { new_session 3 with
    dirs := [
      { parent_dir_baton := none, added := false, abspath := "/", copyfrom_path := none,
        copyfrom_rev := -1, is_copy := false, deleted_entries := [], props := none,
        deleted_props := none }] }

/-- The root session after `delete_entry "b.txt"` on the root. -/
def root_session_deleted : edit_session :=
  { new_session 3 with
    dirs := [
      { parent_dir_baton := none, added := false, abspath := "/", copyfrom_path := none,
        copyfrom_rev := -1, is_copy := false, deleted_entries := [("b.txt", 0)], props := none,
        deleted_props := none }] }

/-- A session whose root baton holds a changed property `color=red`, a deleted
property `old` and a pending delete of `b.txt` (the root baton after
`change_dir_prop` with `color`/`red`, `change_dir_prop` with `old` and no value,
and `delete_entry "b.txt"`). -/
def root_session_props : edit_session :=
  { new_session 3 with
    dirs := [
      { parent_dir_baton := none, added := false, abspath := "/", copyfrom_path := none,
        copyfrom_rev := -1, is_copy := false, deleted_entries := [("b.txt", 0)],
        props := some [("color", "red")], deleted_props := some [("old", "")] }] }

/-- The root session after `add_file "a.txt"` without copy source: one file
baton, at index 0, under the root. -/
def root_session_file : edit_session :=
  { root_session with
    files := [
      { pb := 0, path := "a.txt", props := none, deleted_props := none,
        copyfrom_path := none, copyfrom_rev := 0, is_copy := false, delta_file := none,
        base_checksum := none }] }

/-- The session `root_session_file` with the five bytes `hello` in the delta
file. -/
def root_session_file_delta : edit_session :=
  { root_session_file with
    eb := { stream := "", delta_file := "hello", base_checksum := none,
            current_revision := 3 } }

/-- The root session after `add_directory "p"` with copy source `/old/p` at
revision 5: the root baton at index 0 and the copied directory at index 1. -/
def copied_dir_session : edit_session :=
  { root_session with
    dirs := root_session.dirs ++ [
      { parent_dir_baton := some 0, added := true, abspath := "/p",
        copyfrom_path := some "old/p", copyfrom_rev := 5, is_copy := true,
        deleted_entries := [], props := none, deleted_props := none }] }

/-- A session with two root-like batons for the path `/` that hold the same
pending deletes in a different order and differ in every other field. -/
def two_dirs_session : edit_session :=
  { new_session 3 with
    dirs := [
      { parent_dir_baton := none, added := false, abspath := "/", copyfrom_path := none,
        copyfrom_rev := -1, is_copy := false, deleted_entries := [("a.txt", 0), ("b.txt", 0)],
        props := none, deleted_props := none },
      { parent_dir_baton := none, added := true, abspath := "/", copyfrom_path := some "old",
        copyfrom_rev := 5, is_copy := true, deleted_entries := [("b.txt", 1), ("a.txt", 1)],
        props := some [("color", "red")], deleted_props := some [("old", "")] }] }

/-! ## Auxiliary facts -/

/-- Canonicalizing a relative path twice is the same as once. -/
theorem svn_relpath_canonicalize_idem (p : String) :
    svn_relpath_canonicalize (svn_relpath_canonicalize p) = svn_relpath_canonicalize p := by
  unfold svn_relpath_canonicalize
  apply String.ext
  simp only
  generalize p.data = l
  induction l with
  | nil => rfl
  | cons c t ih =>
    by_cases h : (c == '/') = true
    · simp only [List.dropWhile_cons, h, if_true]; exact ih
    · simp [List.dropWhile_cons, h]

/-- The same fact for the composed function. -/
theorem svn_relpath_canonicalize_comp :
    svn_relpath_canonicalize ∘ svn_relpath_canonicalize = svn_relpath_canonicalize := by
  funext p; exact svn_relpath_canonicalize_idem p

/-- The relative form of an absolute path is the relative form of the path. -/
theorem svn_relpath_canonicalize_fspath (p : String) :
    svn_relpath_canonicalize (svn_fspath__canonicalize p) = svn_relpath_canonicalize p := by
  have h : (svn_fspath__canonicalize p).data = '/' :: (svn_relpath_canonicalize p).data := by
    simp [svn_fspath__canonicalize, String.data_append]
  have h2 := svn_relpath_canonicalize_idem p
  unfold svn_relpath_canonicalize at h2 ⊢
  apply String.ext
  rw [String.ext_iff] at h2
  simp only at h2 ⊢
  unfold svn_relpath_canonicalize at h
  rw [h]
  simpa [List.dropWhile_cons] using h2

/-- Joining a list of strings: the head, then the join of the tail. -/
theorem string_join_cons (a : String) (l : List String) :
    String.join (a :: l) = a ++ String.join l := by
  have h : ∀ (l : List String) (acc : String),
      List.foldl (fun r s => r ++ s) acc l = acc ++ List.foldl (fun r s => r ++ s) "" l := by
    intro l
    induction l with
    | nil => intro acc; simp
    | cons b t ih =>
      intro acc
      simp only [List.foldl_cons]
      rw [ih (acc ++ b), ih ("" ++ b)]
      simp [String.append_assoc]
  simp only [String.join, List.foldl_cons]
  rw [h l ("" ++ a)]
  simp

/-- Joining no strings gives the empty string. -/
theorem string_join_nil : String.join [] = "" := rfl

/-- The record `dump_node` writes for a change. -/
theorem dump_node_change (depth : Nat) (stream : String) (path : Option String)
    (kind : svn_node_kind_t) (props deleted_props : Option (apr_hash_t String))
    (is_copy : Bool) (copyfrom_path : Option String) (copyfrom_rev : Int) :
    dump_node (depth + 1) stream path kind svn_node_action_change props deleted_props
        is_copy copyfrom_path copyfrom_rev =
      some (stream ++ "Node-path: " ++ fmt_s (path.map svn_relpath_canonicalize) ++ "\n"
        ++ (match kind with
            | svn_node_file => "Node-kind: file\n"
            | svn_node_dir => "Node-kind: dir\n"
            | _ => "")
        ++ "Node-action: change\n") := by
  cases kind <;>
    simp [dump_node, SVN_REPOS_DUMPFILE_NODE_PATH, SVN_REPOS_DUMPFILE_NODE_KIND,
      SVN_REPOS_DUMPFILE_NODE_ACTION, String.ext_iff, String.data_append]

/-- The record `dump_node` writes for a delete. -/
theorem dump_node_delete (depth : Nat) (stream : String) (path : Option String)
    (kind : svn_node_kind_t) (props deleted_props : Option (apr_hash_t String))
    (is_copy : Bool) (copyfrom_path : Option String) (copyfrom_rev : Int) :
    dump_node (depth + 1) stream path kind svn_node_action_delete props deleted_props
        is_copy copyfrom_path copyfrom_rev =
      some (stream ++ "Node-path: " ++ fmt_s (path.map svn_relpath_canonicalize) ++ "\n"
        ++ (match kind with
            | svn_node_file => "Node-kind: file\n"
            | svn_node_dir => "Node-kind: dir\n"
            | _ => "")
        ++ "Node-action: delete\n\n\n") := by
  cases kind <;>
    simp [dump_node, SVN_REPOS_DUMPFILE_NODE_PATH, SVN_REPOS_DUMPFILE_NODE_KIND,
      SVN_REPOS_DUMPFILE_NODE_ACTION, String.ext_iff, String.data_append]

/-- The record `dump_node` writes for an add. -/
theorem dump_node_add (depth : Nat) (stream : String) (path : Option String)
    (kind : svn_node_kind_t) (props deleted_props : Option (apr_hash_t String))
    (is_copy : Bool) (copyfrom_path : Option String) (copyfrom_rev : Int) :
    dump_node (depth + 1) stream path kind svn_node_action_add props deleted_props
        is_copy copyfrom_path copyfrom_rev =
      some (stream ++ "Node-path: " ++ fmt_s (path.map svn_relpath_canonicalize) ++ "\n"
        ++ (match kind with
            | svn_node_file => "Node-kind: file\n"
            | svn_node_dir => "Node-kind: dir\n"
            | _ => "")
        ++ "Node-action: add\n"
        ++ "Node-copyfrom-rev: " ++ toString copyfrom_rev ++ "\n"
        ++ "Node-copyfrom-path: " ++ fmt_s (copyfrom_path.map svn_relpath_canonicalize)
        ++ "\n") := by
  cases kind <;>
    simp [dump_node, SVN_REPOS_DUMPFILE_NODE_PATH, SVN_REPOS_DUMPFILE_NODE_KIND,
      SVN_REPOS_DUMPFILE_NODE_ACTION, SVN_REPOS_DUMPFILE_NODE_COPYFROM_REV,
      SVN_REPOS_DUMPFILE_NODE_COPYFROM_PATH, String.ext_iff, String.data_append]

/-- The record `dump_node` writes for a replace without copy. -/
theorem dump_node_replace_plain (depth : Nat) (stream : String) (path : Option String)
    (kind : svn_node_kind_t) (props deleted_props : Option (apr_hash_t String))
    (copyfrom_path : Option String) (copyfrom_rev : Int) :
    dump_node (depth + 1) stream path kind svn_node_action_replace props deleted_props
        false copyfrom_path copyfrom_rev =
      some (stream ++ "Node-path: " ++ fmt_s (path.map svn_relpath_canonicalize) ++ "\n"
        ++ (match kind with
            | svn_node_file => "Node-kind: file\n"
            | svn_node_dir => "Node-kind: dir\n"
            | _ => "")
        ++ "Node-action: replace\n") := by
  cases kind <;>
    simp [dump_node, SVN_REPOS_DUMPFILE_NODE_PATH, SVN_REPOS_DUMPFILE_NODE_KIND,
      SVN_REPOS_DUMPFILE_NODE_ACTION, String.ext_iff, String.data_append]

/-- The loop over the deleted entries appends one delete record per key. -/
theorem dump_deleted_entries_eq (keys : List String) (stream : String) :
    dump_deleted_entries keys stream =
      some (stream ++ String.join (keys.map (fun p =>
        "Node-path: " ++ svn_relpath_canonicalize p ++ "\nNode-action: delete\n\n\n"))) := by
  induction keys generalizing stream with
  | nil => simp [dump_deleted_entries, string_join_nil]
  | cons k t ih =>
    simp only [dump_deleted_entries, dump_node_depth, dump_node_delete, List.map_cons,
      string_join_cons]
    rw [ih]
    simp [fmt_s, String.ext_iff, String.data_append]

/-- Setting a value keeps the keys when the key is present and adds it otherwise. -/
theorem apr_hash_keys_set {α : Type} (ht : apr_hash_t α) (key : String) (v : α) :
    apr_hash_keys (apr_hash_set ht key (some v)) =
      if key ∈ apr_hash_keys ht then apr_hash_keys ht else apr_hash_keys ht ++ [key] := by
  induction ht with
  | nil => simp [apr_hash_set, apr_hash_keys]
  | cons e t ih =>
    obtain ⟨k, w⟩ := e
    by_cases hk : k = key
    · subst hk
      simp [apr_hash_set, apr_hash_keys]
    · have hk2 : ¬ key = k := fun h => hk h.symm
      simp only [apr_hash_keys] at ih
      simp only [apr_hash_set, hk, if_false, apr_hash_keys, List.map_cons, List.mem_cons, hk2,
        false_or, ih]
      split <;> simp

/-- Setting the same value under the same key twice is the same as once. -/
theorem apr_hash_set_idem {α : Type} (ht : apr_hash_t α) (key : String) (v : α) :
    apr_hash_set (apr_hash_set ht key (some v)) key (some v) = apr_hash_set ht key (some v) := by
  induction ht with
  | nil => simp [apr_hash_set]
  | cons e t ih =>
    obtain ⟨k, w⟩ := e
    by_cases hk : k = key
    · simp [apr_hash_set, hk]
    · simp [apr_hash_set, hk, ih]

/-- A lookup finds a value exactly for the keys of the hash. -/
theorem apr_hash_get_isSome {α : Type} (ht : apr_hash_t α) (key : String) :
    (apr_hash_get ht key).isSome = decide (key ∈ apr_hash_keys ht) := by
  induction ht with
  | nil => simp [apr_hash_get, apr_hash_keys]
  | cons e t ih =>
    obtain ⟨k, w⟩ := e
    by_cases hk : k = key
    · simp [apr_hash_get, apr_hash_keys, hk]
    · have hk2 : ¬ key = k := fun h => hk h.symm
      simp only [apr_hash_keys] at ih
      simp [apr_hash_get, apr_hash_keys, hk, hk2, ih]

/-- Setting a value keeps the keys distinct. -/
theorem apr_hash_keys_set_nodup {α : Type} (ht : apr_hash_t α) (key : String) (v : α)
    (h : (apr_hash_keys ht).Nodup) : (apr_hash_keys (apr_hash_set ht key (some v))).Nodup := by
  rw [apr_hash_keys_set]
  split
  · exact h
  · rename_i hk
    exact List.Nodup.append h (List.nodup_singleton key) (by simpa using hk)

/-- A first piece without newline, ended by a newline, is the first line. -/
theorem split_lines_append (l r : List Char) (h : '\n' ∉ l) :
    split_lines (l ++ '\n' :: r) = l :: split_lines r := by
  induction l with
  | nil => simp [split_lines]
  | cons c t ih =>
    have hc : c ≠ '\n' := fun e => h (by simp [e])
    have ht : '\n' ∉ t := fun e => h (by simp [e])
    simp [split_lines, hc, ih ht]

/-- A decimal digit is not a newline. -/
theorem digitChar_ne_newline (n : Nat) (h : n < 10) : Nat.digitChar n ≠ '\n' := by
  interval_cases n <;> decide

/-- The digits of a number hold no newline. -/
theorem toDigitsCore_no_newline (fuel : Nat) : ∀ (n : Nat) (ds : List Char),
    '\n' ∉ ds → '\n' ∉ Nat.toDigitsCore 10 fuel n ds := by
  induction fuel with
  | zero => intro n ds h; simpa [Nat.toDigitsCore] using h
  | succ f ih =>
    intro n ds h
    have hd : '\n' ∉ Nat.digitChar (n % 10) :: ds := by
      intro hm
      rcases List.mem_cons.mp hm with e | e
      · exact digitChar_ne_newline _ (Nat.mod_lt _ (by decide)) e.symm
      · exact h e
    simp only [Nat.toDigitsCore]
    split
    · exact hd
    · exact ih _ _ hd

/-- The decimal form of a natural number holds no newline. -/
theorem nat_toString_no_newline (n : Nat) : '\n' ∉ (toString n).data := by
  show '\n' ∉ (Nat.repr n).data
  unfold Nat.repr Nat.toDigits
  simpa [List.asString] using toDigitsCore_no_newline (n + 1) n [] (by simp)

/-- The decimal form of an integer holds no newline. -/
theorem int_toString_no_newline (i : Int) : '\n' ∉ (toString i).data := by
  cases i with
  | ofNat m => exact nat_toString_no_newline m
  | negSucc m =>
    show '\n' ∉ ("-" ++ toString (Nat.succ m)).data
    rw [String.data_append]
    intro h
    rcases List.mem_append.mp h with e | e
    · revert e; decide
    · exact nat_toString_no_newline _ e

/-- A first line without newline, ended by a newline, is the first text line. -/
theorem text_lines_append (a rest : String) (h : '\n' ∉ a.data) :
    text_lines (a ++ "\n" ++ rest) = a :: text_lines rest := by
  unfold text_lines
  have e : (a ++ "\n" ++ rest).data = a.data ++ '\n' :: rest.data := by
    simp [String.data_append]
  rw [e, split_lines_append _ _ h]
  simp

/-- The empty text has one empty line. -/
theorem text_lines_empty : text_lines "" = [""] := by decide

/-- Canonicalizing a path adds no newline. -/
theorem canon_no_newline (p : String) (h : '\n' ∉ p.data) :
    '\n' ∉ (svn_relpath_canonicalize p).data := by
  intro hm
  exact h ((List.dropWhile_sublist _).subset hm)

/-- A printed canonical path without newline in the path holds none. -/
theorem fmt_canon_no_newline (p : Option String) (h : ∀ q, p = some q → '\n' ∉ q.data) :
    '\n' ∉ (fmt_s (p.map svn_relpath_canonicalize)).data := by
  cases p with
  | none => simp only [Option.map_none', fmt_s]; decide
  | some q => exact canon_no_newline q (h q rfl)

/-- Two strings without newline append to one without newline. -/
theorem append_no_newline (a b : String) (ha : '\n' ∉ a.data) (hb : '\n' ∉ b.data) :
    '\n' ∉ (a ++ b).data := by
  rw [String.data_append]
  intro h
  rcases List.mem_append.mp h with e | e
  · exact ha e
  · exact hb e

/-- A valid baton index is below the number of allocated batons. -/
theorem lt_length_of_getElem? {α : Type} {l : List α} {i : Nat} {a : α}
    (h : l[i]? = some a) : i < l.length := by
  rcases List.getElem?_eq_some.mp h with ⟨hl, _⟩
  exact hl

/-- What `close_directory` does on an allocated directory baton. -/
theorem close_directory_eq (s : edit_session) (dir : Nat) (db : dir_baton)
    (h : s.dirs[dir]? = some db) :
    close_directory dir s = some
      { s with
        eb := { s.eb with stream :=
          s.eb.stream ++ "Node-path: " ++ svn_relpath_canonicalize db.abspath
            ++ "\nNode-kind: dir\nNode-action: change\n"
            ++ String.join ((apr_hash_keys db.deleted_entries).map (fun p =>
                "Node-path: " ++ svn_relpath_canonicalize p ++ "\nNode-action: delete\n\n\n")) },
        dirs := s.dirs.set dir { db with deleted_entries := [] } } := by
  simp only [close_directory, h, dump_node_depth, dump_node_change, dump_deleted_entries_eq,
    svn_hash__clear, Option.map_some', fmt_s]
  simp [String.ext_iff, String.data_append]

/-- What `close_file` does on an allocated file baton with an allocated parent. -/
theorem close_file_eq (s : edit_session) (file : Nat) (text_checksum : Option String)
    (fb : file_baton) (pb : dir_baton)
    (hf : s.files[file]? = some fb) (hp : s.dirs[fb.pb]? = some pb) :
    close_file file text_checksum s =
      (dump_node 2 s.eb.stream (some fb.path) svn_node_file
          (if fb.path ∈ apr_hash_keys pb.deleted_entries then svn_node_action_replace
           else svn_node_action_add)
          fb.props fb.deleted_props fb.is_copy
          (if fb.is_copy then fb.copyfrom_path else none)
          (if fb.is_copy then fb.copyfrom_rev else SVN_INVALID_REVNUM)).map (fun stream =>
        { s with eb := { s.eb with
            stream := stream ++ "Text-delta: true\n"
              ++ (match s.eb.base_checksum with
                  | some c => "Text-delta-base-md5: " ++ c ++ "\n"
                  | none => "")
              ++ "Text-content-length: " ++ toString s.eb.delta_file.utf8ByteSize ++ "\n"
              ++ "Text-content-md5: " ++ fmt_s text_checksum ++ "\n"
              ++ s.eb.delta_file ++ "\n\n",
            delta_file := "" } }) := by
  simp only [close_file, hf, hp, dump_node_depth, apr_hash_get_isSome, decide_eq_true_eq]
  cases hd : dump_node 2 s.eb.stream (some fb.path) svn_node_file
      (if fb.path ∈ apr_hash_keys pb.deleted_entries then svn_node_action_replace
       else svn_node_action_add)
      fb.props fb.deleted_props fb.is_copy
      (if fb.is_copy then fb.copyfrom_path else none)
      (if fb.is_copy then fb.copyfrom_rev else SVN_INVALID_REVNUM) with
  | none => simp
  | some stream =>
    cases hb : s.eb.base_checksum <;>
      simp [SVN_REPOS_DUMPFILE_TEXT_DELTA, SVN_REPOS_DUMPFILE_TEXT_DELTA_BASE_MD5,
        SVN_REPOS_DUMPFILE_TEXT_CONTENT_LENGTH, SVN_REPOS_DUMPFILE_TEXT_CONTENT_MD5,
        String.ext_iff, String.data_append]


/-- Joining two lists of strings one after the other. -/
theorem string_join_append (l1 l2 : List String) :
    String.join (l1 ++ l2) = String.join l1 ++ String.join l2 := by
  induction l1 with
  | nil => simp [string_join_nil]
  | cons a t ih => simp [string_join_cons, ih, String.append_assoc]

/-- With a nesting bound of at least 2, `dump_node` always returns. -/
theorem dump_node_total (depth : Nat) (stream : String) (path : Option String)
    (kind : svn_node_kind_t) (action : svn_node_action)
    (props deleted_props : Option (apr_hash_t String)) (is_copy : Bool)
    (copyfrom_path : Option String) (copyfrom_rev : Int) :
    ∃ out, dump_node (depth + 2) stream path kind action props deleted_props is_copy
      copyfrom_path copyfrom_rev = some out := by
  cases action
  · exact ⟨_, dump_node_change _ _ _ _ _ _ _ _ _⟩
  · exact ⟨_, dump_node_add _ _ _ _ _ _ _ _ _⟩
  · exact ⟨_, dump_node_delete _ _ _ _ _ _ _ _ _⟩
  · cases is_copy
    · exact ⟨_, dump_node_replace_plain _ _ _ _ _ _ _ _⟩
    · simp only [dump_node, Bool.not_true, Bool.false_eq_true, if_false]
      exact ⟨_, dump_node_add depth _ _ kind props deleted_props true _ copyfrom_rev⟩

/-- The example session `root_session` is what `open_root` returns. -/
theorem open_root_new_session : open_root 0 (new_session 3) = some (root_session, 0) := by
  decide

/-- The example session `root_session_deleted` is `root_session` after
`delete_entry` of `b.txt`. -/
theorem delete_entry_root_session :
    delete_entry "b.txt" 2 0 root_session = some root_session_deleted := by
  decide

/-- The function `delete_entry` keeps the keys of the parent's pending-delete set
distinct. -/
theorem delete_entry_keeps_distinct (s s1 : edit_session) (path : String) (revision : Int)
    (parent : Nat) (pb pb1 : dir_baton) (h : s.dirs[parent]? = some pb)
    (hn : (apr_hash_keys pb.deleted_entries).Nodup)
    (hd : delete_entry path revision parent s = some s1)
    (h1 : s1.dirs[parent]? = some pb1) :
    (apr_hash_keys pb1.deleted_entries).Nodup := by
  have hlt := lt_length_of_getElem? h
  simp only [delete_entry, h, Option.some.injEq] at hd
  subst hd
  rw [List.getElem?_set_self hlt] at h1
  simp only [Option.some.injEq] at h1
  subst h1
  exact apr_hash_keys_set_nodup _ _ _ hn

/-- The function `close_file` changes no directory baton and no file baton: in
particular the parent's pending-delete set is as before. -/
theorem close_file_batons (s s1 : edit_session) (file : Nat) (text_checksum : Option String)
    (h : close_file file text_checksum s = some s1) :
    s1.dirs = s.dirs ∧ s1.files = s.files := by
  cases hf : s.files[file]? with
  | none => simp [close_file, hf] at h
  | some fb =>
    cases hp : s.dirs[fb.pb]? with
    | none => simp [close_file, hf, hp] at h
    | some pb =>
      rw [close_file_eq s file text_checksum fb pb hf hp] at h
      rcases Option.map_eq_some'.mp h with ⟨stream, _, hs⟩
      subst hs
      exact ⟨rfl, rfl⟩

/-- The function `close_directory` empties the pending-delete set of the baton
and leaves its two property maps as they were. -/
theorem close_directory_baton (s : edit_session) (dir : Nat) (db : dir_baton)
    (h : s.dirs[dir]? = some db) :
    ∃ s1 db1, close_directory dir s = some s1 ∧ s1.dirs[dir]? = some db1 ∧
      db1.deleted_entries = [] ∧ db1.props = db.props ∧
      db1.deleted_props = db.deleted_props :=
  ⟨_, { db with deleted_entries := [] }, close_directory_eq s dir db h,
    List.getElem?_set_self (lt_length_of_getElem? h), rfl, rfl, rfl⟩

/-- The lines of a replace-with-copy output, for any kind header `kh` whose own
lines are `kl`: no line is the header `Node-action: replace`. -/
theorem replace_copy_lines (p r c kh : String) (kl : List String)
    (hk : ∀ rest, text_lines (kh ++ rest) = kl ++ text_lines rest)
    (hkl : "Node-action: replace" ∉ kl)
    (hp : '\n' ∉ p.data) (hr : '\n' ∉ r.data) (hc : '\n' ∉ c.data) :
    "Node-action: replace" ∉ text_lines
      ("Node-path: " ++ p ++ "\n" ++ kh ++ "Node-action: delete\n\n"
        ++ ("Node-path: " ++ p ++ "\n" ++ kh ++ "Node-action: add\n"
            ++ "Node-copyfrom-rev: " ++ r ++ "\n" ++ "Node-copyfrom-path: " ++ c ++ "\n")) := by
  have h1 : '\n' ∉ ("Node-path: " ++ p).data := append_no_newline _ _ (by decide) hp
  have h2 : '\n' ∉ ("Node-copyfrom-rev: " ++ r).data := append_no_newline _ _ (by decide) hr
  have h3 : '\n' ∉ ("Node-copyfrom-path: " ++ c).data := append_no_newline _ _ (by decide) hc
  have n1 : "Node-action: replace" ≠ "Node-path: " ++ p := by
    simp [String.ext_iff, String.data_append]
  have n2 : "Node-action: replace" ≠ "Node-copyfrom-rev: " ++ r := by
    simp [String.ext_iff, String.data_append]
  have n3 : "Node-action: replace" ≠ "Node-copyfrom-path: " ++ c := by
    simp [String.ext_iff, String.data_append]
  have e : "Node-path: " ++ p ++ "\n" ++ kh ++ "Node-action: delete\n\n"
        ++ ("Node-path: " ++ p ++ "\n" ++ kh ++ "Node-action: add\n"
            ++ "Node-copyfrom-rev: " ++ r ++ "\n" ++ "Node-copyfrom-path: " ++ c ++ "\n")
      = ("Node-path: " ++ p) ++ "\n" ++ (kh ++ ("Node-action: delete" ++ "\n" ++ ("" ++ "\n" ++
        (("Node-path: " ++ p) ++ "\n" ++ (kh ++ ("Node-action: add" ++ "\n" ++
        (("Node-copyfrom-rev: " ++ r) ++ "\n" ++
        (("Node-copyfrom-path: " ++ c) ++ "\n" ++ ""))))))))  := by
    simp [String.ext_iff, String.data_append]
  rw [e, text_lines_append _ _ h1, hk, text_lines_append _ _ (by decide),
    text_lines_append _ _ (by decide), text_lines_append _ _ h1, hk,
    text_lines_append _ _ (by decide), text_lines_append _ _ h2,
    text_lines_append _ _ h3, text_lines_empty]
  simp only [List.mem_cons, List.mem_append, List.mem_singleton, not_or, List.not_mem_nil,
    or_false]
  exact ⟨n1, hkl, by decide, by decide, n1, hkl, by decide, n2, n3, by decide⟩

/-- The kind header of `dump_node` and its lines. -/
theorem kind_header_lines (kind : svn_node_kind_t) :
    ∃ kl : List String, "Node-action: replace" ∉ kl ∧
      ∀ rest, text_lines ((match kind with
          | svn_node_file => "Node-kind: file\n"
          | svn_node_dir => "Node-kind: dir\n"
          | _ => "") ++ rest) = kl ++ text_lines rest := by
  cases kind
  · exact ⟨[], by simp, fun rest => by simp⟩
  · exact ⟨["Node-kind: file"], by decide, fun rest =>
      text_lines_append "Node-kind: file" rest (by decide)⟩
  · exact ⟨["Node-kind: dir"], by decide, fun rest =>
      text_lines_append "Node-kind: dir" rest (by decide)⟩
  · exact ⟨[], by simp, fun rest => by simp⟩

/-- The lines of a delete record that is followed by more text. -/
theorem delete_record_lines (c rest : String) (h : '\n' ∉ c.data) :
    text_lines ("Node-path: " ++ c ++ "\nNode-action: delete\n\n\n" ++ rest)
      = ["Node-path: " ++ c, "Node-action: delete", "", ""] ++ text_lines rest := by
  have e : "Node-path: " ++ c ++ "\nNode-action: delete\n\n\n" ++ rest
      = ("Node-path: " ++ c) ++ "\n" ++ ("Node-action: delete" ++ "\n"
          ++ ("" ++ "\n" ++ ("" ++ "\n" ++ rest))) := by
    simp [String.ext_iff, String.data_append]
  have h1 : '\n' ∉ ("Node-path: " ++ c).data := append_no_newline _ _ (by decide) h
  rw [e, text_lines_append _ _ h1, text_lines_append _ _ (by decide),
    text_lines_append _ _ (by decide), text_lines_append _ _ (by decide)]
  rfl

/-- The lines of the delete records of a list of paths, followed by more text. -/
theorem delete_records_lines (keys : List String) (rest : String)
    (h : ∀ q ∈ keys, '\n' ∉ q.data) :
    text_lines (String.join (keys.map (fun p =>
        "Node-path: " ++ svn_relpath_canonicalize p ++ "\nNode-action: delete\n\n\n")) ++ rest)
      = (keys.map (fun p =>
          ["Node-path: " ++ svn_relpath_canonicalize p, "Node-action: delete", "", ""])).flatten
        ++ text_lines rest := by
  induction keys with
  | nil => simp [string_join_nil]
  | cons k t ih =>
    have hk : '\n' ∉ (svn_relpath_canonicalize k).data :=
      canon_no_newline k (h k (List.mem_cons_self _ _))
    have ht : ∀ q ∈ t, '\n' ∉ q.data := fun q hq => h q (List.mem_cons_of_mem _ hq)
    rw [List.map_cons, string_join_cons, String.append_assoc, delete_record_lines _ _ hk, ih ht]
    simp

/-- How often a `Node-path` header occurs among the lines of delete records. -/
theorem delete_records_count (keys : List String) (c : String) :
    ((keys.map (fun p =>
        ["Node-path: " ++ svn_relpath_canonicalize p, "Node-action: delete", "", ""])).flatten).count
        ("Node-path: " ++ c)
      = (keys.map svn_relpath_canonicalize).count c := by
  have n1 : "Node-action: delete" ≠ "Node-path: " ++ c := by
    simp [String.ext_iff, String.data_append]
  have n2 : "" ≠ "Node-path: " ++ c := by
    simp [String.ext_iff, String.data_append]
  induction keys with
  | nil => simp
  | cons k t ih =>
    rw [List.map_cons, List.flatten_cons, List.count_append, ih, List.map_cons]
    by_cases e : svn_relpath_canonicalize k = c
    · subst e
      simp [List.count_cons, n1, n2]
      omega
    · have e2 : "Node-path: " ++ svn_relpath_canonicalize k ≠ "Node-path: " ++ c := by
        intro he
        apply e
        have := congrArg String.data he
        simp only [String.data_append, List.append_cancel_left_eq] at this
        exact String.ext this
      simp [List.count_cons, n1, n2, e, e2]

/-- A pending path whose canonical form no other pending path shares has that
form once among the canonical forms of the pending paths. -/
theorem canon_count_one (keys : List String) (path : String)
    (hn : keys.Nodup) (hp : path ∈ keys)
    (hc : ∀ q ∈ keys, svn_relpath_canonicalize q = svn_relpath_canonicalize path → q = path) :
    (keys.map svn_relpath_canonicalize).count (svn_relpath_canonicalize path) = 1 := by
  have e : (keys.map svn_relpath_canonicalize).count (svn_relpath_canonicalize path)
      = keys.count path := by
    rw [List.count, List.countP_map, List.count]
    apply List.countP_congr
    intro q hq
    simp only [Function.comp, beq_iff_eq]
    exact ⟨hc q hq, fun e => by rw [e]⟩
  rw [e]
  exact List.count_eq_one_of_mem hn hp

/-- The lines of what `close_directory` writes, and how often the `Node-path`
header of a path occurs among them. -/
theorem close_directory_lines_count (abspath c : String) (keys : List String)
    (ha : '\n' ∉ abspath.data) (hk : ∀ q ∈ keys, '\n' ∉ q.data)
    (hd : svn_relpath_canonicalize abspath ≠ c) :
    (text_lines ("Node-path: " ++ svn_relpath_canonicalize abspath
          ++ "\nNode-kind: dir\nNode-action: change\n"
        ++ String.join (keys.map (fun p =>
            "Node-path: " ++ svn_relpath_canonicalize p ++ "\nNode-action: delete\n\n\n")))).count
        ("Node-path: " ++ c)
      = (keys.map svn_relpath_canonicalize).count c := by
  have e : "Node-path: " ++ svn_relpath_canonicalize abspath
          ++ "\nNode-kind: dir\nNode-action: change\n"
        ++ String.join (keys.map (fun p =>
            "Node-path: " ++ svn_relpath_canonicalize p ++ "\nNode-action: delete\n\n\n"))
      = ("Node-path: " ++ svn_relpath_canonicalize abspath) ++ "\n"
        ++ ("Node-kind: dir" ++ "\n" ++ ("Node-action: change" ++ "\n"
        ++ (String.join (keys.map (fun p =>
            "Node-path: " ++ svn_relpath_canonicalize p ++ "\nNode-action: delete\n\n\n"))
          ++ ""))) := by
    simp [String.ext_iff, String.data_append]
  have h1 : '\n' ∉ ("Node-path: " ++ svn_relpath_canonicalize abspath).data :=
    append_no_newline _ _ (by decide) (canon_no_newline _ ha)
  have n0 : "Node-path: " ++ svn_relpath_canonicalize abspath ≠ "Node-path: " ++ c := by
    intro he
    apply hd
    have := congrArg String.data he
    simp only [String.data_append, List.append_cancel_left_eq] at this
    exact String.ext this
  have n1 : "Node-kind: dir" ≠ "Node-path: " ++ c := by
    simp [String.ext_iff, String.data_append]
  have n2 : "Node-action: change" ≠ "Node-path: " ++ c := by
    simp [String.ext_iff, String.data_append]
  have n3 : "" ≠ "Node-path: " ++ c := by
    simp [String.ext_iff, String.data_append]
  rw [e, text_lines_append _ _ h1, text_lines_append _ _ (by decide),
    text_lines_append _ _ (by decide), delete_records_lines _ _ hk, text_lines_empty]
  simp [List.count_cons, List.count_append, n0, n1, n2, n3, delete_records_count]

/-! ## Properties of the editor (C1 to C10) -/

set_option maxRecDepth 100000

/-- C1. A file opened with `open_file` under a root that has no pending delete
for it, and then closed, gets the record `Node-action: add` (with the copy-source
headers of an add), not `Node-action: change`: `close_file` chooses between
replace and add only. -/
theorem open_file_close_file_writes_add :
    (do
      let (s, root) ← open_root 0 (new_session 3)
      let (s, fb) ← open_file "a.txt" root 2 s
      let s ← close_file fb (some "d41d8cd98f00b204e9800998ecf8427e") s
      pure s.eb.stream : Option String)
      = some ("Node-path: a.txt\nNode-kind: file\nNode-action: add\n"
          ++ "Node-copyfrom-rev: -1\nNode-copyfrom-path: (null)\n"
          ++ "Text-delta: true\nText-content-length: 0\n"
          ++ "Text-content-md5: d41d8cd98f00b204e9800998ecf8427e\n\n\n") := by
  decide

/-- C2. After `delete_entry "a.txt"`, `add_file "a.txt"` and `close_file`, the
root's pending-delete set still holds `a.txt`, and `close_directory` on the root
then writes a separate delete record for it after the replace record. -/
theorem close_file_keeps_pending_delete :
    (do
      let (s, root) ← open_root 0 (new_session 3)
      let s ← delete_entry "a.txt" 2 root s
      let (s, fb) ← add_file "a.txt" root none SVN_INVALID_REVNUM s
      let s1 ← close_file fb (some "d41d8cd98f00b204e9800998ecf8427e") s
      let s2 ← close_directory root s1
      pure (s1.dirs.map (fun d => apr_hash_keys d.deleted_entries), s2.eb.stream)
        : Option (List (List String) × String))
      = some ([["a.txt"]],
          "Node-path: a.txt\nNode-kind: file\nNode-action: replace\n"
          ++ "Text-delta: true\nText-content-length: 0\n"
          ++ "Text-content-md5: d41d8cd98f00b204e9800998ecf8427e\n\n\n"
          ++ "Node-path: \nNode-kind: dir\nNode-action: change\n"
          ++ "Node-path: a.txt\nNode-action: delete\n\n\n") := by
  decide


/-- C3. `dump_node` with action replace and `is_copy` true: with a nesting bound
of 1 it cannot finish (it makes a nested call), the nested add call finishes
with bound 1 (it makes none), and with any bound of at least 2 the output is the
old stream, the `Node-path` header, the kind header (`Node-kind: file` or
`Node-kind: dir`; none for other kinds), `Node-action: delete` and a blank line,
and then exactly the record `dump_node` writes for the same node with action
add, carrying the copy-source revision and path.  When the path and the copy
source path hold no newline, no line of what is written is the header
`Node-action: replace`. -/
theorem dump_node_replace_copy (depth : Nat) (stream : String) (path : Option String)
    (kind : svn_node_kind_t) (props deleted_props : Option (apr_hash_t String))
    (copyfrom_path : Option String) (copyfrom_rev : Int) :
    dump_node 1 stream path kind svn_node_action_replace props deleted_props true
        copyfrom_path copyfrom_rev = none ∧
    ∃ add_record : String,
      dump_node 1 "" path kind svn_node_action_add props deleted_props true
        copyfrom_path copyfrom_rev = some add_record ∧
      add_record =
        "Node-path: " ++ fmt_s (path.map svn_relpath_canonicalize) ++ "\n"
        ++ (match kind with
            | svn_node_file => "Node-kind: file\n"
            | svn_node_dir => "Node-kind: dir\n"
            | _ => "")
        ++ "Node-action: add\n"
        ++ "Node-copyfrom-rev: " ++ toString copyfrom_rev ++ "\n"
        ++ "Node-copyfrom-path: " ++ fmt_s (copyfrom_path.map svn_relpath_canonicalize)
        ++ "\n" ∧
      dump_node (depth + 2) stream path kind svn_node_action_replace props deleted_props true
        copyfrom_path copyfrom_rev =
        some (stream
          ++ ("Node-path: " ++ fmt_s (path.map svn_relpath_canonicalize) ++ "\n"
          ++ (match kind with
              | svn_node_file => "Node-kind: file\n"
              | svn_node_dir => "Node-kind: dir\n"
              | _ => "")
          ++ "Node-action: delete\n\n"
          ++ add_record)) ∧
      ((∀ q, path = some q → '\n' ∉ q.data) →
        (∀ q, copyfrom_path = some q → '\n' ∉ q.data) →
        "Node-action: replace" ∉ text_lines
          ("Node-path: " ++ fmt_s (path.map svn_relpath_canonicalize) ++ "\n"
          ++ (match kind with
              | svn_node_file => "Node-kind: file\n"
              | svn_node_dir => "Node-kind: dir\n"
              | _ => "")
          ++ "Node-action: delete\n\n"
          ++ add_record)) := by
  refine ⟨by simp [dump_node], _, ?_, rfl, ?_, ?_⟩
  · rw [dump_node_add 0]
    simp [String.ext_iff, String.data_append]
  · cases kind <;>
      simp [dump_node, SVN_REPOS_DUMPFILE_NODE_PATH, SVN_REPOS_DUMPFILE_NODE_KIND,
        SVN_REPOS_DUMPFILE_NODE_ACTION, SVN_REPOS_DUMPFILE_NODE_COPYFROM_REV,
        SVN_REPOS_DUMPFILE_NODE_COPYFROM_PATH, svn_relpath_canonicalize_comp,
        String.ext_iff, String.data_append]
  · intro hp hc
    obtain ⟨kl, hkl, hk⟩ := kind_header_lines kind
    exact replace_copy_lines _ _ _ _ kl hk hkl (fmt_canon_no_newline path hp)
      (int_toString_no_newline copyfrom_rev) (fmt_canon_no_newline copyfrom_path hc)

/-- C3 at a concrete input: `/trunk/a.txt` replaced by a copy of
`/branches/b.txt` at revision 5. -/
theorem dump_node_replace_copy_witness :
    dump_node 1 "" (some "/trunk/a.txt") svn_node_file svn_node_action_replace none none
        true (some "/branches/b.txt") 5 = none ∧
    dump_node 2 "" (some "/trunk/a.txt") svn_node_file svn_node_action_replace none none
        true (some "/branches/b.txt") 5 =
      some ("Node-path: trunk/a.txt\nNode-kind: file\nNode-action: delete\n\n"
        ++ "Node-path: trunk/a.txt\nNode-kind: file\nNode-action: add\n"
        ++ "Node-copyfrom-rev: 5\nNode-copyfrom-path: branches/b.txt\n") ∧
    "Node-action: replace" ∉ text_lines
      ("Node-path: trunk/a.txt\nNode-kind: file\nNode-action: delete\n\n"
        ++ "Node-path: trunk/a.txt\nNode-kind: file\nNode-action: add\n"
        ++ "Node-copyfrom-rev: 5\nNode-copyfrom-path: branches/b.txt\n") := by
  obtain ⟨h1, r, _, h3, h4, h5⟩ := dump_node_replace_copy 0 "" (some "/trunk/a.txt")
    svn_node_file none none (some "/branches/b.txt") 5
  subst h3
  refine ⟨h1, h4, ?_⟩
  exact h5 (fun q hq => by cases hq; decide) (fun q hq => by cases hq; decide)

/-- C4. On any session with an allocated parent baton: `delete_entry` of a
path, `add_file` of the same path with copy arguments that are not valid, and
`close_file` all succeed, and the bytes appended to the stream are one record:
`Node-path`, `Node-kind: file`, `Node-action: replace`, then the text headers
(`Text-delta`, the base checksum if the edit baton has one, the length of the
delta file, the content checksum), the delta bytes and two newlines; it has no
`Node-copyfrom-rev` or `Node-copyfrom-path` header. -/
theorem delete_add_file_close_file_replace (s : edit_session) (path : String) (revision : Int)
    (parent : Nat) (pb : dir_baton) (copyfrom_path : Option String) (copyfrom_rev : Int)
    (text_checksum : Option String)
    (h : s.dirs[parent]? = some pb)
    (hcopy : ARE_VALID_COPY_ARGS copyfrom_path copyfrom_rev = false) :
    (do
      let s1 ← delete_entry path revision parent s
      let (s2, fb) ← add_file path parent copyfrom_path copyfrom_rev s1
      let s3 ← close_file fb text_checksum s2
      pure s3.eb.stream : Option String)
      = some (s.eb.stream
        ++ ("Node-path: " ++ svn_relpath_canonicalize path ++ "\n"
            ++ "Node-kind: file\n"
            ++ "Node-action: replace\n"
            ++ "Text-delta: true\n"
            ++ (match s.eb.base_checksum with
                | some c => "Text-delta-base-md5: " ++ c ++ "\n"
                | none => "")
            ++ "Text-content-length: " ++ toString s.eb.delta_file.utf8ByteSize ++ "\n"
            ++ "Text-content-md5: " ++ fmt_s text_checksum ++ "\n"
            ++ s.eb.delta_file ++ "\n\n")) := by
  have hlt := lt_length_of_getElem? h
  have hmem : path ∈ apr_hash_keys (apr_hash_set pb.deleted_entries path (some parent)) := by
    rw [apr_hash_keys_set]; split
    · assumption
    · simp
  simp only [delete_entry, h, add_file, List.getElem?_set_self hlt, hcopy, Option.bind_eq_bind,
    Option.some_bind, Option.pure_def]
  rw [close_file_eq _ _ _ _ _ (List.getElem?_concat_length _ _) (List.getElem?_set_self hlt)]
  simp only [hmem, if_true, dump_node_replace_plain, Option.map_some', fmt_s, Bool.false_eq_true,
    if_false, Option.some_bind, Option.some.injEq]
  cases s.eb.base_checksum <;> simp [String.ext_iff, String.data_append]


/-- C4 at a concrete input: `a.txt` deleted and re-added without copy source
under the root, then closed. -/
theorem delete_add_file_close_file_replace_witness :
    (do
      let s1 ← delete_entry "a.txt" 2 0 root_session
      let (s2, fb) ← add_file "a.txt" 0 none SVN_INVALID_REVNUM s1
      let s3 ← close_file fb (some "d41d8cd98f00b204e9800998ecf8427e") s2
      pure s3.eb.stream : Option String)
      = some ("Node-path: a.txt\nNode-kind: file\nNode-action: replace\n"
          ++ "Text-delta: true\nText-content-length: 0\n"
          ++ "Text-content-md5: d41d8cd98f00b204e9800998ecf8427e\n\n\n") :=
  delete_add_file_close_file_replace root_session "a.txt" 2 0 _ none SVN_INVALID_REVNUM
    (some "d41d8cd98f00b204e9800998ecf8427e") rfl rfl

/-- C5. A directory `d` deleted with `delete_entry` and re-added with
`add_directory` under the root gets a `Node-action: change` record when it is
closed, and closing the root then writes a standalone delete record for `d`:
no replace record (and no delete-then-add pair) is written. -/
theorem delete_add_directory_writes_change_then_delete :
    (do
      let (s, root) ← open_root 0 (new_session 3)
      let s ← delete_entry "d" 2 root s
      let (s, db) ← add_directory "d" root none SVN_INVALID_REVNUM s
      let s ← close_directory db s
      let s ← close_directory root s
      pure s.eb.stream : Option String)
      = some ("Node-path: d\nNode-kind: dir\nNode-action: change\n"
          ++ "Node-path: \nNode-kind: dir\nNode-action: change\n"
          ++ "Node-path: d\nNode-action: delete\n\n\n") := by
  decide

/-- C6, as stated, fails: with `b.txt` and `/b.txt` both recorded by
`delete_entry` under the root and neither re-added, `close_directory` writes two
delete records with the header `Node-path: b.txt`, not one; and with `/`
recorded, the delete record carries the same `Node-path` header as the root's
own record. -/
theorem close_directory_two_spellings :
    (do
      let (s, root) ← open_root 0 (new_session 3)
      let s ← delete_entry "b.txt" 2 root s
      let s ← delete_entry "/b.txt" 2 root s
      let s ← close_directory root s
      pure (s.eb.stream, (text_lines s.eb.stream).count "Node-path: b.txt")
        : Option (String × Nat))
      = some ("Node-path: \nNode-kind: dir\nNode-action: change\n"
          ++ "Node-path: b.txt\nNode-action: delete\n\n\n"
          ++ "Node-path: b.txt\nNode-action: delete\n\n\n", 2) ∧
    (do
      let (s, root) ← open_root 0 (new_session 3)
      let s ← delete_entry "/" 2 root s
      let s ← close_directory root s
      pure (s.eb.stream, (text_lines s.eb.stream).count "Node-path: ")
        : Option (String × Nat))
      = some ("Node-path: \nNode-kind: dir\nNode-action: change\n"
          ++ "Node-path: \nNode-action: delete\n\n\n", 2) := by
  decide

/-- C6, amended. Let a path be in the pending-delete set of an allocated
directory baton (whose hash has distinct keys), let no other pending path have
the same form once leading slashes are removed, and let that form differ from
the directory's own path without leading slashes.  Then `close_directory`
succeeds and what it appends to the stream is the directory's own record, the
delete records of the pending paths enumerated before the path, the record
`Node-path:` with the path without leading slashes, `Node-action: delete` and two
blank lines (no other header), and the delete records of the pending paths
enumerated after it; none of the records before and after carries the path's
`Node-path` header.  When no pending path and not the directory's path holds a
newline, the line `Node-path:` with the path occurs exactly once among the lines
written. -/
theorem close_directory_delete_record (s : edit_session) (dir : Nat) (db : dir_baton)
    (path : String)
    (h : s.dirs[dir]? = some db)
    (hn : (apr_hash_keys db.deleted_entries).Nodup)
    (hp : path ∈ apr_hash_keys db.deleted_entries)
    (hc : ∀ q ∈ apr_hash_keys db.deleted_entries,
      svn_relpath_canonicalize q = svn_relpath_canonicalize path → q = path)
    (hd : svn_relpath_canonicalize db.abspath ≠ svn_relpath_canonicalize path) :
    ∃ s1 before after written,
      close_directory dir s = some s1 ∧
      s1.eb.stream = s.eb.stream ++ written ∧
      apr_hash_keys db.deleted_entries = before ++ path :: after ∧
      written =
        ("Node-path: " ++ svn_relpath_canonicalize db.abspath
            ++ "\nNode-kind: dir\nNode-action: change\n")
        ++ String.join (before.map (fun p =>
            "Node-path: " ++ svn_relpath_canonicalize p ++ "\nNode-action: delete\n\n\n"))
        ++ ("Node-path: " ++ svn_relpath_canonicalize path ++ "\nNode-action: delete\n\n\n")
        ++ String.join (after.map (fun p =>
            "Node-path: " ++ svn_relpath_canonicalize p ++ "\nNode-action: delete\n\n\n")) ∧
      (∀ q ∈ before ++ after,
        "Node-path: " ++ svn_relpath_canonicalize q
          ≠ "Node-path: " ++ svn_relpath_canonicalize path) ∧
      ((∀ q ∈ apr_hash_keys db.deleted_entries, '\n' ∉ q.data) → '\n' ∉ db.abspath.data →
        (text_lines written).count ("Node-path: " ++ svn_relpath_canonicalize path) = 1) := by
  obtain ⟨before, after, hsplit⟩ := List.append_of_mem hp
  have hn2 := hn
  rw [hsplit] at hn2
  have hb : path ∉ before := fun hm =>
    (List.nodup_append.mp hn2).2.2 hm (List.mem_cons_self _ _)
  have ha : path ∉ after := (List.nodup_cons.mp (List.nodup_append.mp hn2).2.1).1
  have hw : "Node-path: " ++ svn_relpath_canonicalize db.abspath
          ++ "\nNode-kind: dir\nNode-action: change\n"
        ++ String.join ((apr_hash_keys db.deleted_entries).map (fun p =>
            "Node-path: " ++ svn_relpath_canonicalize p ++ "\nNode-action: delete\n\n\n"))
      = ("Node-path: " ++ svn_relpath_canonicalize db.abspath
            ++ "\nNode-kind: dir\nNode-action: change\n")
        ++ String.join (before.map (fun p =>
            "Node-path: " ++ svn_relpath_canonicalize p ++ "\nNode-action: delete\n\n\n"))
        ++ ("Node-path: " ++ svn_relpath_canonicalize path ++ "\nNode-action: delete\n\n\n")
        ++ String.join (after.map (fun p =>
            "Node-path: " ++ svn_relpath_canonicalize p ++ "\nNode-action: delete\n\n\n")) := by
    simp only [hsplit, List.map_append, List.map_cons, string_join_append, string_join_cons]
    simp [String.ext_iff, String.data_append]
  refine ⟨_, before, after, _, close_directory_eq s dir db h, ?_, hsplit, rfl, ?_, ?_⟩
  · rw [← hw]
    simp [String.ext_iff, String.data_append]
  · intro q hq he
    have hq2 : q ∈ apr_hash_keys db.deleted_entries := by
      rw [hsplit]
      rcases List.mem_append.mp hq with e | e
      · exact List.mem_append_left _ e
      · exact List.mem_append_right _ (List.mem_cons_of_mem _ e)
    have hdata := congrArg String.data he
    simp only [String.data_append, List.append_cancel_left_eq] at hdata
    have hqp : q = path := hc q hq2 (String.ext hdata)
    rw [hqp] at hq
    rcases List.mem_append.mp hq with e | e
    · exact hb e
    · exact ha e
  · intro hk hab
    rw [← hw, close_directory_lines_count _ _ _ hab hk hd]
    exact canon_count_one _ _ hn hp hc

/-- C6, amended, at a concrete input: `b.txt` pending under the root. -/
theorem close_directory_delete_record_witness :
    ∃ s1,
      close_directory 0 root_session_deleted = some s1 ∧
      s1.eb.stream = "Node-path: \nNode-kind: dir\nNode-action: change\n"
        ++ "Node-path: b.txt\nNode-action: delete\n\n\n" ∧
      (text_lines s1.eb.stream).count "Node-path: b.txt" = 1 := by
  obtain ⟨s1, before, after, written, h1, h2, h3, h4, _, h6⟩ :=
    close_directory_delete_record root_session_deleted 0 _ "b.txt" rfl (by decide) (by decide)
      (by decide) (by decide)
  have hb : before = [] := by
    cases before with
    | nil => rfl
    | cons a t =>
      have e : ["b.txt"] = a :: (t ++ "b.txt" :: after) := h3
      simp at e
  subst hb
  have ha : after = [] := by
    have e : ["b.txt"] = "b.txt" :: after := h3
    simpa using e.symm
  subst ha
  have hw : written = "Node-path: \nNode-kind: dir\nNode-action: change\n"
      ++ "Node-path: b.txt\nNode-action: delete\n\n\n" := by
    rw [h4]
    decide
  have hs : s1.eb.stream = written := by
    rw [h2]
    show "" ++ written = written
    simp
  refine ⟨s1, h1, by rw [hs, hw], ?_⟩
  rw [hs]
  exact h6 (by decide) (by decide)

/-- C7. `delete_entry` on an allocated parent baton always succeeds, leaves the
edit baton (and so the output stream) and the file batons as they were, inserts
the path in the parent's pending-delete set (the keys are unchanged when the
path was already there, and gain the path otherwise), and a second call with
the same path leaves the whole session as it was after the first. -/
theorem delete_entry_idempotent (s : edit_session) (path : String) (revision revision2 : Int)
    (parent : Nat) (pb : dir_baton) (h : s.dirs[parent]? = some pb) :
    ∃ s1 pb1, delete_entry path revision parent s = some s1 ∧
      s1.eb = s.eb ∧ s1.files = s.files ∧
      s1.dirs[parent]? = some pb1 ∧
      apr_hash_keys pb1.deleted_entries =
        (if path ∈ apr_hash_keys pb.deleted_entries then apr_hash_keys pb.deleted_entries
         else apr_hash_keys pb.deleted_entries ++ [path]) ∧
      delete_entry path revision2 parent s1 = some s1 := by
  have hlt := lt_length_of_getElem? h
  refine ⟨{ s with dirs := s.dirs.set parent { pb with
      deleted_entries := apr_hash_set pb.deleted_entries path (some parent) } },
    { pb with deleted_entries := apr_hash_set pb.deleted_entries path (some parent) },
    ?_, rfl, rfl, ?_, ?_, ?_⟩
  · simp only [delete_entry, h]
  · exact List.getElem?_set_self hlt
  · exact apr_hash_keys_set _ _ _
  · simp only [delete_entry, List.getElem?_set_self hlt, List.set_set, apr_hash_set_idem]

/-- C7 at a concrete input: `b.txt` deleted twice under the root. -/
theorem delete_entry_idempotent_witness :
    ∃ s1 pb1, delete_entry "b.txt" 2 0 root_session = some s1 ∧
      s1.eb = root_session.eb ∧ s1.files = root_session.files ∧
      s1.dirs[0]? = some pb1 ∧
      apr_hash_keys pb1.deleted_entries = ["b.txt"] ∧
      delete_entry "b.txt" 7 0 s1 = some s1 :=
  delete_entry_idempotent root_session "b.txt" 2 7 0 _ rfl

/-- C8. On any allocated directory baton, whatever its property maps, added
flag and copy source, `close_directory` succeeds and appends the directory's
own record (`Node-path`, `Node-kind: dir`, `Node-action: change`) followed by one
delete record per key of the pending-delete set, in enumeration order; when the
keys are distinct each pending path has exactly one delete record. -/
theorem close_directory_records (s : edit_session) (dir : Nat) (db : dir_baton)
    (h : s.dirs[dir]? = some db)
    (hn : (apr_hash_keys db.deleted_entries).Nodup) :
    ∃ s1, close_directory dir s = some s1 ∧
      s1.eb.stream = s.eb.stream
        ++ ("Node-path: " ++ svn_relpath_canonicalize db.abspath
            ++ "\nNode-kind: dir\nNode-action: change\n")
        ++ String.join ((apr_hash_keys db.deleted_entries).map (fun p =>
            "Node-path: " ++ svn_relpath_canonicalize p ++ "\nNode-action: delete\n\n\n")) ∧
      ∀ p ∈ apr_hash_keys db.deleted_entries,
        (apr_hash_keys db.deleted_entries).count p = 1 := by
  refine ⟨_, close_directory_eq s dir db h, ?_, fun p hp => List.count_eq_one_of_mem hn hp⟩
  simp [String.ext_iff, String.data_append]

/-- C8 at a concrete input: the root with property changes and `b.txt` pending. -/
theorem close_directory_records_witness :
    ∃ s1, close_directory 0 root_session_props = some s1 ∧
      s1.eb.stream = "Node-path: \nNode-kind: dir\nNode-action: change\n"
        ++ "Node-path: b.txt\nNode-action: delete\n\n\n" ∧
      ∀ p ∈ ["b.txt"], ["b.txt"].count p = 1 :=
  close_directory_records root_session_props 0 _ rfl (by decide)

/-- C9, as stated, fails: closing the root twice with `b.txt` pending, the
second call appends the root's `change` record once more, so the stream after
the second call differs from the stream after the first. -/
theorem close_directory_twice_appends :
    (do
      let s1 ← close_directory 0 root_session_deleted
      let s2 ← close_directory 0 s1
      pure (s1.eb.stream, s2.eb.stream, decide (s2.eb.stream = s1.eb.stream))
        : Option (String × String × Bool))
      = some ("Node-path: \nNode-kind: dir\nNode-action: change\n"
            ++ "Node-path: b.txt\nNode-action: delete\n\n\n",
          "Node-path: \nNode-kind: dir\nNode-action: change\n"
            ++ "Node-path: b.txt\nNode-action: delete\n\n\n"
            ++ "Node-path: \nNode-kind: dir\nNode-action: change\n",
          false) := by
  decide

/-- C9, amended. On any allocated directory baton, `close_directory` called a
second time right after the first succeeds and appends exactly the directory's
own `change` record again and no delete record; the pending-delete set is empty
after either call. -/
theorem close_directory_second_call (s : edit_session) (dir : Nat) (db : dir_baton)
    (h : s.dirs[dir]? = some db) :
    ∃ s1 s2 db1 db2,
      close_directory dir s = some s1 ∧ close_directory dir s1 = some s2 ∧
      s1.dirs[dir]? = some db1 ∧ db1.deleted_entries = [] ∧
      s2.dirs[dir]? = some db2 ∧ db2.deleted_entries = [] ∧
      s2.eb.stream = s1.eb.stream
        ++ ("Node-path: " ++ svn_relpath_canonicalize db.abspath
            ++ "\nNode-kind: dir\nNode-action: change\n") := by
  have hlt := lt_length_of_getElem? h
  have h1 := close_directory_eq s dir db h
  refine ⟨_, _, { db with deleted_entries := [] }, { db with deleted_entries := [] }, h1,
    close_directory_eq _ dir { db with deleted_entries := [] } (List.getElem?_set_self hlt),
    List.getElem?_set_self hlt, rfl, ?_, rfl, ?_⟩
  · exact List.getElem?_set_self (by simpa using hlt)
  · simp [apr_hash_keys, string_join_nil, String.ext_iff, String.data_append]

/-- C9, amended, at a concrete input: the root with `b.txt` pending. -/
theorem close_directory_second_call_witness :
    ∃ s1 s2 db1 db2,
      close_directory 0 root_session_deleted = some s1 ∧ close_directory 0 s1 = some s2 ∧
      s1.dirs[0]? = some db1 ∧ db1.deleted_entries = [] ∧
      s2.dirs[0]? = some db2 ∧ db2.deleted_entries = [] ∧
      s2.eb.stream = s1.eb.stream ++ "Node-path: \nNode-kind: dir\nNode-action: change\n" :=
  close_directory_second_call root_session_deleted 0 _ rfl

/-- C10. Closing a root baton that holds a changed property `color=red`, a
deleted property `old` and a pending delete of `b.txt` empties the
pending-delete set and leaves both property maps as they were (and writes no
property section). -/
theorem close_directory_keeps_props :
    (do
      let s1 ← close_directory 0 root_session_props
      pure (s1.dirs.map (fun d => (apr_hash_keys d.deleted_entries, d.props, d.deleted_props)),
        s1.eb.stream)
        : Option (List (List String × Option (List (String × String))
            × Option (List (String × String))) × String))
      = some ([([], some [("color", "red")], some [("old", "")])],
          "Node-path: \nNode-kind: dir\nNode-action: change\n"
            ++ "Node-path: b.txt\nNode-action: delete\n\n\n") := by
  rfl

/-! ## Auxiliary facts on property changes -/

/-- Writing an element back where it already is changes nothing. -/
theorem list_set_same {α : Type} (l : List α) (i : Nat) (a : α) (h : l[i]? = some a) :
    l.set i a = l := by
  induction l generalizing i with
  | nil => simp
  | cons b t ih =>
    cases i with
    | zero => simp at h; simp [h]
    | succ j => simp at h; simp [ih j h]

/-- A lookup after setting a value: the new value under the key set, the old
lookup under any other key. -/
theorem apr_hash_get_set {α : Type} (ht : apr_hash_t α) (key key2 : String) (v : α) :
    apr_hash_get (apr_hash_set ht key (some v)) key2 =
      if key = key2 then some v else apr_hash_get ht key2 := by
  induction ht with
  | nil => simp [apr_hash_set, apr_hash_get]
  | cons e t ih =>
    obtain ⟨k, w⟩ := e
    by_cases hk : k = key
    · subst hk
      by_cases h2 : k = key2 <;> simp [apr_hash_set, apr_hash_get, h2]
    · by_cases h2 : k = key2
      · subst h2
        have : ¬ key = k := fun e => hk e.symm
        simp [apr_hash_set, apr_hash_get, hk, this]
      · simp [apr_hash_set, apr_hash_get, hk, h2, ih]

/-- With distinct keys, an entry of the hash is what a lookup of its key finds. -/
theorem apr_hash_get_of_mem {α : Type} (ht : apr_hash_t α) (key : String) (v : α)
    (hn : (apr_hash_keys ht).Nodup) (hm : (key, v) ∈ ht) : apr_hash_get ht key = some v := by
  induction ht with
  | nil => simp at hm
  | cons e t ih =>
    obtain ⟨k, w⟩ := e
    simp only [apr_hash_keys, List.map_cons, List.nodup_cons, List.mem_map, Prod.exists,
      exists_and_right, exists_eq_right, not_exists] at hn
    rcases List.mem_cons.mp hm with h | h
    · cases h; simp [apr_hash_get]
    · have hne : ¬ k = key := fun e => hn.1 v (e ▸ h)
      simp only [apr_hash_get, hne, if_false]
      exact ih (by simpa [apr_hash_keys] using hn.2) h

/-- One `change_dir_prop` call on an allocated baton changes its two maps as
`prop_maps_after` says and nothing else. -/
theorem change_dir_prop_eq (kind : String → svn_prop_kind_t) (dir : Nat) (name : String)
    (value : Option String) (s : edit_session) (db : dir_baton) (h : s.dirs[dir]? = some db) :
    change_dir_prop kind dir name value s = some { s with dirs := s.dirs.set dir { db with
      props := (prop_maps_after kind [(name, value)] (db.props, db.deleted_props)).1,
      deleted_props :=
        (prop_maps_after kind [(name, value)] (db.props, db.deleted_props)).2 } } := by
  by_cases hk : kind name = svn_prop_regular_kind
  · cases value with
    | some v =>
      cases hp : db.props <;>
        simp [change_dir_prop, prop_maps_after, hk, h, hp]
    | none =>
      cases hp : db.deleted_props <;>
        simp [change_dir_prop, prop_maps_after, hk, h, hp]
  · simp only [change_dir_prop, prop_maps_after, hk, ne_eq, not_false_eq_true, if_true]
    rw [list_set_same _ _ _ h]

/-- A sequence of `change_dir_prop` calls on an allocated baton changes its two
maps as `prop_maps_after` says and nothing else. -/
theorem change_dir_prop_seq_eq (kind : String → svn_prop_kind_t) (dir : Nat)
    (calls : List (String × Option String)) (s : edit_session) (db : dir_baton)
    (h : s.dirs[dir]? = some db) :
    change_dir_prop_seq kind dir calls s = some { s with dirs := s.dirs.set dir { db with
      props := (prop_maps_after kind calls (db.props, db.deleted_props)).1,
      deleted_props := (prop_maps_after kind calls (db.props, db.deleted_props)).2 } } := by
  induction calls generalizing s db with
  | nil =>
    simp only [change_dir_prop_seq, prop_maps_after]
    rw [list_set_same _ _ _ h]
  | cons c rest ih =>
    obtain ⟨name, value⟩ := c
    have hlt := lt_length_of_getElem? h
    simp only [change_dir_prop_seq, change_dir_prop_eq kind dir name value s db h]
    rw [ih _ _ (List.getElem?_set_self hlt)]
    simp only [List.set_set]
    by_cases hk : kind name = svn_prop_regular_kind
    · cases value <;> simp [prop_maps_after, hk]
    · simp [prop_maps_after, hk]

/-- One `change_file_prop` call on an allocated baton changes its two maps as
`prop_maps_after` says and nothing else. -/
theorem change_file_prop_eq (kind : String → svn_prop_kind_t) (file : Nat) (name : String)
    (value : Option String) (s : edit_session) (fb : file_baton) (h : s.files[file]? = some fb) :
    change_file_prop kind file name value s = some { s with files := s.files.set file { fb with
      props := (prop_maps_after kind [(name, value)] (fb.props, fb.deleted_props)).1,
      deleted_props :=
        (prop_maps_after kind [(name, value)] (fb.props, fb.deleted_props)).2 } } := by
  by_cases hk : kind name = svn_prop_regular_kind
  · cases value with
    | some v =>
      cases hp : fb.props <;>
        simp [change_file_prop, prop_maps_after, hk, h, hp]
    | none =>
      cases hp : fb.deleted_props <;>
        simp [change_file_prop, prop_maps_after, hk, h, hp]
  · simp only [change_file_prop, prop_maps_after, hk, ne_eq, not_false_eq_true, if_true]
    rw [list_set_same _ _ _ h]

/-- A sequence of `change_file_prop` calls on an allocated baton changes its two
maps as `prop_maps_after` says and nothing else. -/
theorem change_file_prop_seq_eq (kind : String → svn_prop_kind_t) (file : Nat)
    (calls : List (String × Option String)) (s : edit_session) (fb : file_baton)
    (h : s.files[file]? = some fb) :
    change_file_prop_seq kind file calls s = some { s with files := s.files.set file { fb with
      props := (prop_maps_after kind calls (fb.props, fb.deleted_props)).1,
      deleted_props := (prop_maps_after kind calls (fb.props, fb.deleted_props)).2 } } := by
  induction calls generalizing s fb with
  | nil =>
    simp only [change_file_prop_seq, prop_maps_after]
    rw [list_set_same _ _ _ h]
  | cons c rest ih =>
    obtain ⟨name, value⟩ := c
    have hlt := lt_length_of_getElem? h
    simp only [change_file_prop_seq, change_file_prop_eq kind file name value s fb h]
    rw [ih _ _ (List.getElem?_set_self hlt)]
    simp only [List.set_set]
    by_cases hk : kind name = svn_prop_regular_kind
    · cases value <;> simp [prop_maps_after, hk]
    · simp [prop_maps_after, hk]

/-- The value of the last call that gives a name a value, call by call. -/
theorem last_value_cons (name : String) (c : String × Option String)
    (rest : List (String × Option String)) :
    last_value name (c :: rest) =
      match last_value name rest with
      | some v => some v
      | none => if c.1 = name then c.2 else none := by
  unfold last_value
  rw [List.filterMap_cons]
  cases hc : (if c.1 = name then c.2 else none) with
  | none => simp only; cases List.getLast? _ <;> rfl
  | some w =>
    simp only [List.getLast?_cons]
    cases List.getLast? _ <;> rfl

/-- After a sequence of property changes, the changed-property map gives a
regular name the value of the last call that carried one, or else what it gave
before. -/
theorem prop_maps_after_props (kind : String → svn_prop_kind_t) (name : String)
    (hk : kind name = svn_prop_regular_kind) (calls : List (String × Option String))
    (maps : Option (apr_hash_t String) × Option (apr_hash_t String)) :
    apr_hash_get ((prop_maps_after kind calls maps).1.getD []) name =
      match last_value name calls with
      | some v => some v
      | none => apr_hash_get (maps.1.getD []) name := by
  induction calls generalizing maps with
  | nil => simp [prop_maps_after, last_value]
  | cons c rest ih =>
    obtain ⟨m, value⟩ := c
    obtain ⟨p, d⟩ := maps
    rw [last_value_cons]
    by_cases hm : kind m = svn_prop_regular_kind
    · cases value with
      | some w =>
        simp only [prop_maps_after, hm, ne_eq, not_true_eq_false, if_false]
        rw [ih]
        cases last_value name rest with
        | some x => rfl
        | none => by_cases hmn : m = name <;> simp [apr_hash_get_set, hmn]
      | none =>
        simp only [prop_maps_after, hm, ne_eq, not_true_eq_false, if_false]
        rw [ih]
        cases last_value name rest with
        | some x => rfl
        | none => simp
    · have hne : ¬ m = name := fun e => hm (e ▸ hk)
      simp only [prop_maps_after, hm, ne_eq, not_false_eq_true, if_true]
      rw [ih]
      cases last_value name rest with
      | some x => rfl
      | none => simp [hne]

/-- After a sequence of property changes, the deleted-property map holds the
empty tombstone for a regular name that some call removed, or else what it held
before. -/
theorem prop_maps_after_deleted (kind : String → svn_prop_kind_t) (name : String)
    (hk : kind name = svn_prop_regular_kind) (calls : List (String × Option String))
    (maps : Option (apr_hash_t String) × Option (apr_hash_t String)) :
    apr_hash_get ((prop_maps_after kind calls maps).2.getD []) name =
      if has_removal name calls then some "" else apr_hash_get (maps.2.getD []) name := by
  induction calls generalizing maps with
  | nil => simp [prop_maps_after, has_removal]
  | cons c rest ih =>
    obtain ⟨m, value⟩ := c
    obtain ⟨p, d⟩ := maps
    have hr : has_removal name ((m, value) :: rest) =
        ((decide (m = name) && value.isNone) || has_removal name rest) := by
      simp [has_removal]
    rw [hr]
    by_cases hm : kind m = svn_prop_regular_kind
    · cases value with
      | some w =>
        simp only [prop_maps_after, hm, ne_eq, not_true_eq_false, if_false]
        rw [ih]
        simp
      | none =>
        simp only [prop_maps_after, hm, ne_eq, not_true_eq_false, if_false]
        rw [ih]
        by_cases hmn : m = name <;> by_cases hrr : has_removal name rest = true <;>
          simp [apr_hash_get_set, hmn, hrr]
    · have hne : ¬ m = name := fun e => hm (e ▸ hk)
      simp only [prop_maps_after, hm, ne_eq, not_false_eq_true, if_true]
      rw [ih]
      simp [hne]

/-- A sequence of property changes keeps the keys of the changed-property map
distinct. -/
theorem prop_maps_after_props_nodup (kind : String → svn_prop_kind_t)
    (calls : List (String × Option String))
    (maps : Option (apr_hash_t String) × Option (apr_hash_t String))
    (h1 : (apr_hash_keys (maps.1.getD [])).Nodup) :
    (apr_hash_keys ((prop_maps_after kind calls maps).1.getD [])).Nodup := by
  induction calls generalizing maps with
  | nil => exact h1
  | cons c rest ih =>
    obtain ⟨m, value⟩ := c
    obtain ⟨p, d⟩ := maps
    by_cases hm : kind m = svn_prop_regular_kind
    · cases value with
      | some w =>
        simp only [prop_maps_after, hm, ne_eq, not_true_eq_false, if_false]
        exact ih _ (apr_hash_keys_set_nodup _ _ _ h1)
      | none =>
        simp only [prop_maps_after, hm, ne_eq, not_true_eq_false, if_false]
        exact ih _ h1
    · simp only [prop_maps_after, hm, ne_eq, not_false_eq_true, if_true]
      exact ih _ h1

/-- A sequence of property changes keeps the keys of the deleted-property map
distinct. -/
theorem prop_maps_after_deleted_nodup (kind : String → svn_prop_kind_t)
    (calls : List (String × Option String))
    (maps : Option (apr_hash_t String) × Option (apr_hash_t String))
    (h2 : (apr_hash_keys (maps.2.getD [])).Nodup) :
    (apr_hash_keys ((prop_maps_after kind calls maps).2.getD [])).Nodup := by
  induction calls generalizing maps with
  | nil => exact h2
  | cons c rest ih =>
    obtain ⟨m, value⟩ := c
    obtain ⟨p, d⟩ := maps
    by_cases hm : kind m = svn_prop_regular_kind
    · cases value with
      | some w =>
        simp only [prop_maps_after, hm, ne_eq, not_true_eq_false, if_false]
        exact ih _ h2
      | none =>
        simp only [prop_maps_after, hm, ne_eq, not_true_eq_false, if_false]
        exact ih _ (apr_hash_keys_set_nodup _ _ _ h2)
    · simp only [prop_maps_after, hm, ne_eq, not_false_eq_true, if_true]
      exact ih _ h2

/-- With distinct keys, a key that a lookup finds occurs once among the keys. -/
theorem apr_hash_count_of_get {α : Type} (ht : apr_hash_t α) (key : String) (v : α)
    (hn : (apr_hash_keys ht).Nodup) (hg : apr_hash_get ht key = some v) :
    (apr_hash_keys ht).count key = 1 := by
  have hs : (apr_hash_get ht key).isSome = true := by rw [hg]; rfl
  rw [apr_hash_get_isSome] at hs
  exact List.count_eq_one_of_mem hn (by simpa using hs)

/-- In a sequence of calls that all give one name a value, the last value is
the value of the last call. -/
theorem last_value_all (name : String) (earlier : List String) (last : String) :
    last_value name ((earlier ++ [last]).map (fun v => (name, some v))) = some last := by
  unfold last_value
  rw [List.map_append, List.filterMap_append]
  simp

/-- The final lookup facts for a map whose lookup of `name` is `some last`. -/
theorem props_last_write (maps1 : Option (apr_hash_t String)) (name last : String)
    (hn : (apr_hash_keys (maps1.getD [])).Nodup)
    (hg : apr_hash_get (maps1.getD []) name = some last) :
    ∃ props, maps1 = some props ∧ apr_hash_get props name = some last ∧
      (apr_hash_keys props).count name = 1 ∧ ∀ v, (name, v) ∈ props → v = last := by
  cases hm : maps1 with
  | none => rw [hm] at hg; simp [apr_hash_get] at hg
  | some props =>
    rw [hm] at hg hn
    simp only [Option.getD_some] at hg hn
    refine ⟨props, rfl, hg, apr_hash_count_of_get props name last hn hg, fun v hv => ?_⟩
    have := apr_hash_get_of_mem props name v hn hv
    rw [hg] at this
    exact (Option.some.inj this).symm


/-- The callbacks other than `close_file` and `close_directory` leave the edit
baton as it is, and `close_directory` leaves its delta file as it is: so the
delta file of a session stays empty from `new_session`, or from a `close_file`,
up to the next `close_file`. -/
theorem callbacks_keep_delta_file (kind : String → svn_prop_kind_t) (s s1 : edit_session)
    (n : Nat) (path name : String) (rev : Int) (cp value checksum : Option String)
    (hb : handler_baton) :
    (open_root rev s = some (s1, n) → s1.eb = s.eb) ∧
    (delete_entry path rev n s = some s1 → s1.eb = s.eb) ∧
    (∀ m, add_directory path n cp rev s = some (s1, m) → s1.eb = s.eb) ∧
    (∀ m, open_directory path n rev s = some (s1, m) → s1.eb = s.eb) ∧
    (∀ m, add_file path n cp rev s = some (s1, m) → s1.eb = s.eb) ∧
    (∀ m, open_file path n rev s = some (s1, m) → s1.eb = s.eb) ∧
    (change_dir_prop kind n name value s = some s1 → s1.eb = s.eb) ∧
    (change_file_prop kind n name value s = some s1 → s1.eb = s.eb) ∧
    (apply_textdelta n checksum s = some (s1, hb) → s1.eb = s.eb) ∧
    (close_directory n s = some s1 → s1.eb.delta_file = s.eb.delta_file) := by
  refine ⟨?_, ?_, ?_, ?_, ?_, ?_, ?_, ?_, ?_, ?_⟩
  · intro h
    simp only [open_root, make_dir_baton, Option.some.injEq, Prod.mk.injEq] at h
    rw [← h.1]
  · intro h
    cases hd : s.dirs[n]? with
    | none => simp [delete_entry, hd] at h
    | some pb =>
      simp only [delete_entry, hd, Option.some.injEq] at h
      rw [← h]
  · intro m h
    cases hd : s.dirs[n]? with
    | none => simp [add_directory, hd] at h
    | some pb =>
      simp only [add_directory, make_dir_baton, hd, Option.map_some', Option.some.injEq,
        Prod.mk.injEq] at h
      rw [← h.1]
  · intro m h
    cases hd : s.dirs[n]? with
    | none => simp [open_directory, hd] at h
    | some pb =>
      simp only [open_directory, make_dir_baton, hd, Option.map_some', Option.some.injEq,
        Prod.mk.injEq] at h
      rw [← h.1]
  · intro m h
    cases hd : s.dirs[n]? with
    | none => simp [add_file, hd] at h
    | some pb =>
      simp only [add_file, hd, Option.some.injEq, Prod.mk.injEq] at h
      rw [← h.1]
  · intro m h
    cases hd : s.dirs[n]? with
    | none => simp [open_file, hd] at h
    | some pb =>
      simp only [open_file, hd, Option.some.injEq, Prod.mk.injEq] at h
      rw [← h.1]
  · intro h
    cases hd : s.dirs[n]? with
    | none =>
      by_cases hk : kind name = svn_prop_regular_kind
      · simp [change_dir_prop, hd, hk] at h
      · simp only [change_dir_prop, hk, ne_eq, not_false_eq_true, if_true,
          Option.some.injEq] at h
        rw [← h]
    | some db =>
      rw [change_dir_prop_eq kind n name value s db hd] at h
      simp only [Option.some.injEq] at h
      rw [← h]
  · intro h
    cases hd : s.files[n]? with
    | none =>
      by_cases hk : kind name = svn_prop_regular_kind
      · simp [change_file_prop, hd, hk] at h
      · simp only [change_file_prop, hk, ne_eq, not_false_eq_true, if_true,
          Option.some.injEq] at h
        rw [← h]
    | some fb =>
      rw [change_file_prop_eq kind n name value s fb hd] at h
      simp only [Option.some.injEq] at h
      rw [← h]
  · intro h
    cases hd : s.files[n]? with
    | none => simp [apply_textdelta, hd] at h
    | some fb =>
      simp only [apply_textdelta, hd, Option.some.injEq, Prod.mk.injEq] at h
      rw [← h.1]
  · intro h
    cases hd : s.dirs[n]? with
    | none => simp [close_directory, hd] at h
    | some db =>
      rw [close_directory_eq s n db hd] at h
      simp only [Option.some.injEq] at h
      rw [← h]


/-! ## Properties of the editor (C11 to C20) -/

/-- The example session `root_session_file` is `root_session` after `add_file`. -/
theorem add_file_root_session :
    add_file "a.txt" 0 none SVN_INVALID_REVNUM root_session = some (root_session_file, 0) := by
  decide

/-- The example session `root_session_props` is `root_session_deleted` after
`change_dir_prop` of `color` to `red` and `change_dir_prop` of `old` without a
value. -/
theorem change_dir_prop_root_session :
    change_dir_prop_seq sample_property_kind 0 [("color", some "red"), ("old", none)]
      root_session_deleted = some root_session_props := by
  decide

/-- The example session `root_session_file_delta` differs from
`root_session_file` in the delta file only. -/
theorem root_session_file_delta_batons :
    root_session_file_delta.dirs = root_session_file.dirs ∧
    root_session_file_delta.files = root_session_file.files ∧
    root_session_file_delta.eb.delta_file = "hello" := by
  decide

/-- C11. Last write wins.  For a regular property name and a non-empty sequence
of calls on it that all carry a value, on any allocated directory baton
(`change_dir_prop`) and any allocated file baton (`change_file_prop`) whose
property map has distinct keys: the calls succeed, and afterwards the property
map exists, maps the name to the value of the last call, has exactly one entry
for the name, and every entry for the name carries that last value. -/
theorem change_prop_last_write_wins (kind : String → svn_prop_kind_t) (name : String)
    (earlier : List String) (last : String) (s : edit_session)
    (hk : kind name = svn_prop_regular_kind) :
    (∀ dir db, s.dirs[dir]? = some db → (apr_hash_keys (db.props.getD [])).Nodup →
      ∃ s1 db1 props,
        change_dir_prop_seq kind dir ((earlier ++ [last]).map (fun v => (name, some v))) s
          = some s1 ∧
        s1.dirs[dir]? = some db1 ∧ db1.props = some props ∧
        apr_hash_get props name = some last ∧
        (apr_hash_keys props).count name = 1 ∧
        ∀ v, (name, v) ∈ props → v = last) ∧
    (∀ file fb, s.files[file]? = some fb → (apr_hash_keys (fb.props.getD [])).Nodup →
      ∃ s1 fb1 props,
        change_file_prop_seq kind file ((earlier ++ [last]).map (fun v => (name, some v))) s
          = some s1 ∧
        s1.files[file]? = some fb1 ∧ fb1.props = some props ∧
        apr_hash_get props name = some last ∧
        (apr_hash_keys props).count name = 1 ∧
        ∀ v, (name, v) ∈ props → v = last) := by
  constructor
  · intro dir db h hn
    have hg := prop_maps_after_props kind name hk
      ((earlier ++ [last]).map (fun v => (name, some v))) (db.props, db.deleted_props)
    rw [last_value_all] at hg
    obtain ⟨props, hp, h1, h2, h3⟩ := props_last_write _ name last
      (prop_maps_after_props_nodup kind _ (db.props, db.deleted_props) hn) hg
    exact ⟨_, _, props, change_dir_prop_seq_eq kind dir _ s db h,
      List.getElem?_set_self (lt_length_of_getElem? h), hp, h1, h2, h3⟩
  · intro file fb h hn
    have hg := prop_maps_after_props kind name hk
      ((earlier ++ [last]).map (fun v => (name, some v))) (fb.props, fb.deleted_props)
    rw [last_value_all] at hg
    obtain ⟨props, hp, h1, h2, h3⟩ := props_last_write _ name last
      (prop_maps_after_props_nodup kind _ (fb.props, fb.deleted_props) hn) hg
    exact ⟨_, _, props, change_file_prop_seq_eq kind file _ s fb h,
      List.getElem?_set_self (lt_length_of_getElem? h), hp, h1, h2, h3⟩

/-- C11 at a concrete input: `color` set to `blue`, `green` and then `red` on the
root baton and on the file baton of `a.txt`. -/
theorem change_prop_last_write_wins_witness :
    (∃ s1 db1 props,
        change_dir_prop_seq sample_property_kind 0
          ((["blue", "green"] ++ ["red"]).map (fun v => ("color", some v))) root_session_file
          = some s1 ∧
        s1.dirs[0]? = some db1 ∧ db1.props = some props ∧
        apr_hash_get props "color" = some "red" ∧
        (apr_hash_keys props).count "color" = 1 ∧
        ∀ v, ("color", v) ∈ props → v = "red") ∧
    (∃ s1 fb1 props,
        change_file_prop_seq sample_property_kind 0
          ((["blue", "green"] ++ ["red"]).map (fun v => ("color", some v))) root_session_file
          = some s1 ∧
        s1.files[0]? = some fb1 ∧ fb1.props = some props ∧
        apr_hash_get props "color" = some "red" ∧
        (apr_hash_keys props).count "color" = 1 ∧
        ∀ v, ("color", v) ∈ props → v = "red") :=
  ⟨(change_prop_last_write_wins sample_property_kind "color" ["blue", "green"] "red"
      root_session_file (by decide)).1 0 _ rfl (by decide),
   (change_prop_last_write_wins sample_property_kind "color" ["blue", "green"] "red"
      root_session_file (by decide)).2 0 _ rfl (by decide)⟩


/-- C12, as stated, fails: on the root baton, `color` removed and then set to
`red` is in both maps afterwards, and so is `color` set to `red` and then
removed. -/
theorem change_dir_prop_keeps_both :
    (do
      let s1 ← change_dir_prop_seq sample_property_kind 0
        [("color", none), ("color", some "red")] root_session
      let s2 ← change_dir_prop_seq sample_property_kind 0
        [("color", some "red"), ("color", none)] root_session
      pure (s1.dirs.map (fun d => (d.props, d.deleted_props)),
        s2.dirs.map (fun d => (d.props, d.deleted_props)))
        : Option (List (Option (List (String × String)) × Option (List (String × String)))
            × List (Option (List (String × String)) × Option (List (String × String)))))
      = some ([(some [("color", "red")], some [("color", "")])],
          [(some [("color", "red")], some [("color", "")])]) := by
  rfl

/-- C12, amended. A property change with a value sets the name in the
changed-property map and leaves the deleted-property map alone; a change
without a value sets an empty tombstone in the deleted-property map and leaves
the changed-property map alone.  So for every sequence of calls on an allocated
directory or file baton whose maps have distinct keys, and every regular name:
the calls succeed, both maps keep distinct keys, the changed-property map gives
the name the value of the last call that carried one (else what it gave
before), and the deleted-property map holds the tombstone when some call
carried no value (else what it held before). -/
theorem change_prop_maps_independent (kind : String → svn_prop_kind_t) (name : String)
    (calls : List (String × Option String)) (s : edit_session)
    (hk : kind name = svn_prop_regular_kind) :
    (∀ dir db, s.dirs[dir]? = some db →
      (apr_hash_keys (db.props.getD [])).Nodup →
      (apr_hash_keys (db.deleted_props.getD [])).Nodup →
      ∃ s1 db1,
        change_dir_prop_seq kind dir calls s = some s1 ∧ s1.dirs[dir]? = some db1 ∧
        (apr_hash_keys (db1.props.getD [])).Nodup ∧
        (apr_hash_keys (db1.deleted_props.getD [])).Nodup ∧
        apr_hash_get (db1.props.getD []) name =
          (match last_value name calls with
           | some v => some v
           | none => apr_hash_get (db.props.getD []) name) ∧
        apr_hash_get (db1.deleted_props.getD []) name =
          (if has_removal name calls then some ""
           else apr_hash_get (db.deleted_props.getD []) name)) ∧
    (∀ file fb, s.files[file]? = some fb →
      (apr_hash_keys (fb.props.getD [])).Nodup →
      (apr_hash_keys (fb.deleted_props.getD [])).Nodup →
      ∃ s1 fb1,
        change_file_prop_seq kind file calls s = some s1 ∧ s1.files[file]? = some fb1 ∧
        (apr_hash_keys (fb1.props.getD [])).Nodup ∧
        (apr_hash_keys (fb1.deleted_props.getD [])).Nodup ∧
        apr_hash_get (fb1.props.getD []) name =
          (match last_value name calls with
           | some v => some v
           | none => apr_hash_get (fb.props.getD []) name) ∧
        apr_hash_get (fb1.deleted_props.getD []) name =
          (if has_removal name calls then some ""
           else apr_hash_get (fb.deleted_props.getD []) name)) := by
  constructor
  · intro dir db h h1 h2
    exact ⟨_, _, change_dir_prop_seq_eq kind dir calls s db h,
      List.getElem?_set_self (lt_length_of_getElem? h),
      prop_maps_after_props_nodup kind calls (db.props, db.deleted_props) h1,
      prop_maps_after_deleted_nodup kind calls (db.props, db.deleted_props) h2,
      prop_maps_after_props kind name hk calls (db.props, db.deleted_props),
      prop_maps_after_deleted kind name hk calls (db.props, db.deleted_props)⟩
  · intro file fb h h1 h2
    exact ⟨_, _, change_file_prop_seq_eq kind file calls s fb h,
      List.getElem?_set_self (lt_length_of_getElem? h),
      prop_maps_after_props_nodup kind calls (fb.props, fb.deleted_props) h1,
      prop_maps_after_deleted_nodup kind calls (fb.props, fb.deleted_props) h2,
      prop_maps_after_props kind name hk calls (fb.props, fb.deleted_props),
      prop_maps_after_deleted kind name hk calls (fb.props, fb.deleted_props)⟩

/-- C12, amended, at a concrete input: `color` set to `blue`, removed, and set
to `red`, on the root baton and on the file baton of `a.txt`. -/
theorem change_prop_maps_independent_witness :
    (∃ s1 db1,
        change_dir_prop_seq sample_property_kind 0
          [("color", some "blue"), ("color", none), ("color", some "red")] root_session_file
          = some s1 ∧ s1.dirs[0]? = some db1 ∧
        (apr_hash_keys (db1.props.getD [])).Nodup ∧
        (apr_hash_keys (db1.deleted_props.getD [])).Nodup ∧
        apr_hash_get (db1.props.getD []) "color" = some "red" ∧
        apr_hash_get (db1.deleted_props.getD []) "color" = some "") ∧
    (∃ s1 fb1,
        change_file_prop_seq sample_property_kind 0
          [("color", some "blue"), ("color", none), ("color", some "red")] root_session_file
          = some s1 ∧ s1.files[0]? = some fb1 ∧
        (apr_hash_keys (fb1.props.getD [])).Nodup ∧
        (apr_hash_keys (fb1.deleted_props.getD [])).Nodup ∧
        apr_hash_get (fb1.props.getD []) "color" = some "red" ∧
        apr_hash_get (fb1.deleted_props.getD []) "color" = some "") :=
  ⟨(change_prop_maps_independent sample_property_kind "color"
      [("color", some "blue"), ("color", none), ("color", some "red")] root_session_file
      (by decide)).1 0 _ rfl (by decide) (by decide),
   (change_prop_maps_independent sample_property_kind "color"
      [("color", some "blue"), ("color", none), ("color", some "red")] root_session_file
      (by decide)).2 0 _ rfl (by decide) (by decide)⟩

/-- C13. For a property name that is not regular, `change_dir_prop` and
`change_file_prop` succeed, with or without a value and on any baton, and
return the session as it was: neither property map changes. -/
theorem change_prop_not_regular (kind : String → svn_prop_kind_t) (name : String)
    (value : Option String) (dir file : Nat) (s : edit_session)
    (hk : kind name ≠ svn_prop_regular_kind) :
    change_dir_prop kind dir name value s = some s ∧
    change_file_prop kind file name value s = some s := by
  simp [change_dir_prop, change_file_prop, hk]

/-- C13 at a concrete input: the entry property `svn:entry:committed-rev` on
the root baton and on the file baton of `a.txt`. -/
theorem change_prop_not_regular_witness :
    change_dir_prop sample_property_kind 0 "svn:entry:committed-rev" (some "7")
        root_session_file = some root_session_file ∧
    change_file_prop sample_property_kind 0 "svn:entry:committed-rev" (some "7")
        root_session_file = some root_session_file :=
  change_prop_not_regular sample_property_kind "svn:entry:committed-rev" (some "7") 0 0
    root_session_file (by decide)


/-- The output of `dump_node` does not depend on the two property maps. -/
theorem dump_node_props_irrelevant (depth : Nat) (stream : String) (path : Option String)
    (kind : svn_node_kind_t) (action : svn_node_action)
    (props deleted_props props2 deleted_props2 : Option (apr_hash_t String)) (is_copy : Bool)
    (copyfrom_path : Option String) (copyfrom_rev : Int) :
    dump_node depth stream path kind action props deleted_props is_copy copyfrom_path
        copyfrom_rev =
      dump_node depth stream path kind action props2 deleted_props2 is_copy copyfrom_path
        copyfrom_rev := by
  induction depth generalizing stream path action copyfrom_path with
  | zero => simp [dump_node]
  | succ d ih =>
    cases action <;> simp only [dump_node]
    split
    · rfl
    · exact ih _ _ _ _

/-- The bytes `close_file` writes do not depend on the property maps of the
file baton: no property section is ever written. -/
theorem close_file_props_irrelevant (s : edit_session) (file : Nat)
    (text_checksum : Option String) (fb : file_baton) (pb : dir_baton)
    (props deleted_props : Option (apr_hash_t String))
    (hf : s.files[file]? = some fb) (hp : s.dirs[fb.pb]? = some pb) :
    (close_file file text_checksum
        { s with files :=
            s.files.set file ({ fb with props := props, deleted_props := deleted_props }) }).map
        (fun r => r.eb.stream)
      = (close_file file text_checksum s).map (fun r => r.eb.stream) := by
  have hlt := lt_length_of_getElem? hf
  have h2 := close_file_eq
    { s with files :=
        s.files.set file ({ fb with props := props, deleted_props := deleted_props }) }
    file text_checksum ({ fb with props := props, deleted_props := deleted_props }) pb
    (List.getElem?_set_self hlt) hp
  rw [close_file_eq s file text_checksum fb pb hf hp, h2]
  simp only [Option.map_map]
  rw [dump_node_props_irrelevant 2 _ _ _ _ props deleted_props fb.props fb.deleted_props]
  rfl

/-- What `do_dump_props` would write when it is not switched off: the
`Prop-delta` and `Prop-content-length` headers and, with `dump_data_too`, the
`Content-length` header, the property block and two newlines, after which both
maps are cleared. -/
theorem do_dump_props_eq (normalize : apr_hash_t String → Option (apr_hash_t String))
    (propstring : Option String) (stream : String) (props deleted_props np : apr_hash_t String)
    (trigger_var : Option Bool) (dump_data_too : Bool)
    (ht : trigger_var ≠ some false) (hn : normalize props = some np) :
    do_dump_props normalize propstring stream props deleted_props trigger_var dump_data_too =
      some (some (svn_hash_write_incremental np deleted_props "PROPS-END"),
        stream ++ "Prop-delta: true\nProp-content-length: "
          ++ toString (svn_hash_write_incremental np deleted_props "PROPS-END").utf8ByteSize
          ++ "\n"
          ++ (if dump_data_too then
                "Content-length: "
                ++ toString (svn_hash_write_incremental np deleted_props "PROPS-END").utf8ByteSize
                ++ "\n\n" ++ svn_hash_write_incremental np deleted_props "PROPS-END" ++ "\n\n"
              else ""),
        if dump_data_too then [] else props,
        if dump_data_too then [] else deleted_props,
        if dump_data_too then trigger_var.map (fun _ => false) else trigger_var) := by
  cases dump_data_too <;>
    simp [do_dump_props, get_props_content, ht, hn, svn_hash__clear,
      SVN_REPOS_DUMPFILE_PROP_DELTA, SVN_REPOS_DUMPFILE_PROP_CONTENT_LENGTH,
      SVN_REPOS_DUMPFILE_CONTENT_LENGTH, String.ext_iff, String.data_append]

/-- C14. A file added as `a.txt` under the root, given the regular property
`color=red` and closed: the property is in the baton, and the record that is
written has the `Node-path`, `Node-kind` and `Node-action: add` headers and the
text headers, and no `Prop-delta` header, no `Prop-content-length` header and
no property block. -/
theorem close_file_writes_no_props :
    (do
      let (s, root) ← open_root 0 (new_session 3)
      let (s, fb) ← add_file "a.txt" root none SVN_INVALID_REVNUM s
      let s1 ← change_file_prop sample_property_kind fb "color" (some "red") s
      let s2 ← close_file fb (some "5d41402abc4b2a76b9719d911017c592") s1
      pure (s1.files.map (fun f => f.props), s2.eb.stream,
        decide ("Prop-delta: true" ∈ text_lines s2.eb.stream))
        : Option (List (Option (List (String × String))) × String × Bool))
      = some ([some [("color", "red")]],
          "Node-path: a.txt\nNode-kind: file\nNode-action: add\n"
          ++ "Node-copyfrom-rev: -1\nNode-copyfrom-path: (null)\n"
          ++ "Text-delta: true\nText-content-length: 0\n"
          ++ "Text-content-md5: 5d41402abc4b2a76b9719d911017c592\n\n\n",
          false) := by
  rfl

/-- C15. When the normalizer succeeds, `get_props_content` returns the header
`Prop-delta: true` followed by `Prop-content-length: N`, with `N` the byte
length of the content it returns (the property block written for the normalized
properties and the deleted properties), and that content ends with the line
`PROPS-END`. -/
theorem get_props_content_header
    (normalize : apr_hash_t String → Option (apr_hash_t String))
    (props deleted_props normal_props : apr_hash_t String)
    (hn : normalize props = some normal_props) :
    get_props_content normalize props deleted_props =
      some ("Prop-delta: true\n" ++ "Prop-content-length: "
          ++ toString (svn_hash_write_incremental normal_props deleted_props
              "PROPS-END").utf8ByteSize ++ "\n",
        svn_hash_write_incremental normal_props deleted_props "PROPS-END") ∧
    ∃ body, svn_hash_write_incremental normal_props deleted_props "PROPS-END"
      = body ++ "PROPS-END\n" := by
  refine ⟨?_, String.join (normal_props.map (fun e =>
      "K " ++ toString e.1.utf8ByteSize ++ "\n" ++ e.1 ++ "\n"
      ++ "V " ++ toString e.2.utf8ByteSize ++ "\n" ++ e.2 ++ "\n"))
    ++ String.join (deleted_props.map (fun e =>
      "D " ++ toString e.1.utf8ByteSize ++ "\n" ++ e.1 ++ "\n")), ?_⟩
  · simp [get_props_content, hn, SVN_REPOS_DUMPFILE_PROP_DELTA,
      SVN_REPOS_DUMPFILE_PROP_CONTENT_LENGTH, String.ext_iff, String.data_append]
  · simp only [svn_hash_write_incremental, String.append_assoc]
    rfl

/-- C15 at a concrete input: `color=red` changed and `old` deleted, with a
normalizer that returns the properties as they are; the content has 36 bytes. -/
theorem get_props_content_header_witness :
    get_props_content some [("color", "red")] [("old", "")] =
      some ("Prop-delta: true\nProp-content-length: 36\n",
        "K 5\ncolor\nV 3\nred\nD 3\nold\nPROPS-END\n") ∧
    ∃ body, "K 5\ncolor\nV 3\nred\nD 3\nold\nPROPS-END\n" = body ++ "PROPS-END\n" :=
  get_props_content_header some [("color", "red")] [("old", "")] [("color", "red")] rfl

/-- C16. A file added as `a.txt` under the root with no copy source and closed:
the add record carries the headers `Node-copyfrom-rev: -1` and
`Node-copyfrom-path: (null)`, although `is_copy` is false. -/
theorem add_record_without_copy_has_copyfrom :
    (do
      let (s, root) ← open_root 0 (new_session 3)
      let (s, fb) ← add_file "a.txt" root none SVN_INVALID_REVNUM s
      let s1 ← close_file fb (some "5d41402abc4b2a76b9719d911017c592") s
      pure (s.files.map (fun f => f.is_copy), s1.eb.stream,
        decide ("Node-copyfrom-rev: -1" ∈ text_lines s1.eb.stream),
        decide ("Node-copyfrom-path: (null)" ∈ text_lines s1.eb.stream))
        : Option (List Bool × String × Bool × Bool))
      = some ([false],
          "Node-path: a.txt\nNode-kind: file\nNode-action: add\n"
          ++ "Node-copyfrom-rev: -1\nNode-copyfrom-path: (null)\n"
          ++ "Text-delta: true\nText-content-length: 0\n"
          ++ "Text-content-md5: 5d41402abc4b2a76b9719d911017c592\n\n\n",
          true, true) := by
  rfl

/-- C17. A file added as `a.txt` under the root with copy source
`/trunk/b.txt` at revision 5 and closed: the baton has `is_copy` true and no
copy-source path (and revision 0), and the add record carries
`Node-copyfrom-rev: 0` and `Node-copyfrom-path: (null)`. -/
theorem add_file_drops_copy_source :
    (do
      let (s, root) ← open_root 0 (new_session 3)
      let (s, fb) ← add_file "a.txt" root (some "/trunk/b.txt") 5 s
      let s1 ← close_file fb (some "5d41402abc4b2a76b9719d911017c592") s
      pure (s.files.map (fun f => (f.is_copy, f.copyfrom_path, f.copyfrom_rev)), s1.eb.stream)
        : Option (List (Bool × Option String × Int) × String))
      = some ([(true, none, 0)],
          "Node-path: a.txt\nNode-kind: file\nNode-action: add\n"
          ++ "Node-copyfrom-rev: 0\nNode-copyfrom-path: (null)\n"
          ++ "Text-delta: true\nText-content-length: 0\n"
          ++ "Text-content-md5: 5d41402abc4b2a76b9719d911017c592\n\n\n") := by
  rfl

/-- C18. On any allocated file baton with an allocated parent, `close_file`
succeeds and writes, after the node record, `Text-delta: true`, the base
checksum header if the edit baton has one, `Text-content-length: N` with `N`
the byte size of the delta file, `Text-content-md5:` with the `text_checksum`
argument, then the whole delta file (those `N` bytes) and two newlines.  When
the delta file is empty, as it is when no delta was captured since the session
began or since the last close, the length written is 0. -/
theorem close_file_text_headers (s : edit_session) (file : Nat)
    (text_checksum : Option String) (fb : file_baton) (pb : dir_baton)
    (hf : s.files[file]? = some fb) (hp : s.dirs[fb.pb]? = some pb) :
    ∃ node s1,
      dump_node dump_node_depth s.eb.stream (some fb.path) svn_node_file
          (if fb.path ∈ apr_hash_keys pb.deleted_entries then svn_node_action_replace
           else svn_node_action_add)
          fb.props fb.deleted_props fb.is_copy
          (if fb.is_copy then fb.copyfrom_path else none)
          (if fb.is_copy then fb.copyfrom_rev else SVN_INVALID_REVNUM) = some node ∧
      close_file file text_checksum s = some s1 ∧
      s1.eb.stream = node ++ ("Text-delta: true\n"
        ++ (match s.eb.base_checksum with
            | some c => "Text-delta-base-md5: " ++ c ++ "\n"
            | none => "")
        ++ "Text-content-length: " ++ toString s.eb.delta_file.utf8ByteSize ++ "\n"
        ++ "Text-content-md5: " ++ fmt_s text_checksum ++ "\n"
        ++ s.eb.delta_file ++ "\n\n") ∧
      (s.eb.delta_file = "" →
        s1.eb.stream = node ++ ("Text-delta: true\n"
          ++ (match s.eb.base_checksum with
              | some c => "Text-delta-base-md5: " ++ c ++ "\n"
              | none => "")
          ++ "Text-content-length: 0\n"
          ++ "Text-content-md5: " ++ fmt_s text_checksum ++ "\n"
          ++ "\n\n")) := by
  obtain ⟨node, hnode⟩ := dump_node_total 0 s.eb.stream (some fb.path) svn_node_file
    (if fb.path ∈ apr_hash_keys pb.deleted_entries then svn_node_action_replace
     else svn_node_action_add)
    fb.props fb.deleted_props fb.is_copy
    (if fb.is_copy then fb.copyfrom_path else none)
    (if fb.is_copy then fb.copyfrom_rev else SVN_INVALID_REVNUM)
  have hc := close_file_eq s file text_checksum fb pb hf hp
  rw [hnode] at hc
  refine ⟨node, _, hnode, hc, ?_, fun he => ?_⟩
  · cases s.eb.base_checksum <;> simp [String.ext_iff, String.data_append]
  · simp only [he]
    cases s.eb.base_checksum <;> simp [String.ext_iff, String.data_append] <;> rfl


/-- C18 at a concrete input: the file baton of `a.txt` closed with the five
bytes `hello` in the delta file. -/
theorem close_file_text_headers_witness :
    ∃ node s1,
      dump_node dump_node_depth "" (some "a.txt") svn_node_file svn_node_action_add
          none none false none SVN_INVALID_REVNUM = some node ∧
      close_file 0 (some "5d41402abc4b2a76b9719d911017c592") root_session_file_delta
        = some s1 ∧
      s1.eb.stream = node ++ ("Text-delta: true\n"
        ++ "Text-content-length: 5\n"
        ++ "Text-content-md5: 5d41402abc4b2a76b9719d911017c592\n"
        ++ "hello" ++ "\n\n") ∧
      ("hello" = "" →
        s1.eb.stream = node ++ ("Text-delta: true\n"
          ++ "Text-content-length: 0\n"
          ++ "Text-content-md5: 5d41402abc4b2a76b9719d911017c592\n"
          ++ "\n\n")) :=
  close_file_text_headers root_session_file_delta 0
    (some "5d41402abc4b2a76b9719d911017c592") _ _ rfl rfl

/-- C19. On any allocated file baton with an allocated parent, whatever the
delta file holds before the call, `close_file` succeeds and leaves the delta
file of the session empty: its length is zero. -/
theorem close_file_truncates_delta_file (s : edit_session) (file : Nat)
    (text_checksum : Option String) (fb : file_baton) (pb : dir_baton)
    (hf : s.files[file]? = some fb) (hp : s.dirs[fb.pb]? = some pb) :
    ∃ s1, close_file file text_checksum s = some s1 ∧
      s1.eb.delta_file = "" ∧ s1.eb.delta_file.utf8ByteSize = 0 := by
  obtain ⟨node, hnode⟩ := dump_node_total 0 s.eb.stream (some fb.path) svn_node_file
    (if fb.path ∈ apr_hash_keys pb.deleted_entries then svn_node_action_replace
     else svn_node_action_add)
    fb.props fb.deleted_props fb.is_copy
    (if fb.is_copy then fb.copyfrom_path else none)
    (if fb.is_copy then fb.copyfrom_rev else SVN_INVALID_REVNUM)
  have hc := close_file_eq s file text_checksum fb pb hf hp
  rw [hnode] at hc
  exact ⟨_, hc, rfl, rfl⟩

/-- C19 at a concrete input: the file baton of `a.txt` closed with `hello` in
the delta file. -/
theorem close_file_truncates_delta_file_witness :
    ∃ s1, close_file 0 (some "5d41402abc4b2a76b9719d911017c592") root_session_file_delta
        = some s1 ∧
      s1.eb.delta_file = "" ∧ s1.eb.delta_file.utf8ByteSize = 0 :=
  close_file_truncates_delta_file root_session_file_delta 0
    (some "5d41402abc4b2a76b9719d911017c592") _ _ rfl rfl

/-- C20. A file opened as `a.txt` under the root, `apply_textdelta` called with
the base checksum `d41d8cd98f00b204e9800998ecf8427e`, then closed: the checksum
is stored in the file baton, the edit baton still has none, and the record has
no `Text-delta-base-md5` header. -/
theorem apply_textdelta_base_checksum_not_written :
    (do
      let (s, root) ← open_root 0 (new_session 3)
      let (s, fb) ← open_file "a.txt" root 2 s
      let (s1, _) ← apply_textdelta fb (some "d41d8cd98f00b204e9800998ecf8427e") s
      let s2 ← close_file fb (some "5d41402abc4b2a76b9719d911017c592") s1
      pure (s1.files.map (fun f => f.base_checksum), s1.eb.base_checksum, s2.eb.stream,
        decide ("Text-delta-base-md5: d41d8cd98f00b204e9800998ecf8427e"
          ∈ text_lines s2.eb.stream))
        : Option (List (Option String) × Option String × String × Bool))
      = some ([some "d41d8cd98f00b204e9800998ecf8427e"], none,
          "Node-path: a.txt\nNode-kind: file\nNode-action: add\n"
          ++ "Node-copyfrom-rev: -1\nNode-copyfrom-path: (null)\n"
          ++ "Text-delta: true\nText-content-length: 0\n"
          ++ "Text-content-md5: 5d41402abc4b2a76b9719d911017c592\n\n\n",
          false) := by
  rfl


/-! ## Auxiliary facts on paths and directory batons -/

/-- A path that does not start with a slash is its own relative form. -/
theorem canon_of_head (p : String) (h : p.data.head? ≠ some '/') :
    svn_relpath_canonicalize p = p := by
  unfold svn_relpath_canonicalize
  apply String.ext
  simp only
  cases hl : p.data with
  | nil => rfl
  | cons c t =>
    rw [hl] at h
    have hc : ¬ c = '/' := fun e => h (by simp [e])
    simp [List.dropWhile_cons, hc]

/-- A nonempty path that is its own relative form does not start with a slash. -/
theorem head_of_canon (p : String) (h : svn_relpath_canonicalize p = p) :
    p.data.head? ≠ some '/' := by
  intro hh
  have hd : (svn_relpath_canonicalize p).data = p.data := by rw [h]
  unfold svn_relpath_canonicalize at hd
  cases hl : p.data with
  | nil => rw [hl] at hh; simp at hh
  | cons c t =>
    rw [hl] at hh hd
    simp only [List.head?_cons, Option.some.injEq] at hh
    subst hh
    simp only [List.dropWhile_cons, beq_self_eq_true, if_true] at hd
    have hlen := congrArg List.length hd
    have hle := (List.dropWhile_sublist (fun c => c == '/') (l := t)).length_le
    simp only [List.length_cons] at hlen
    omega

/-- The last component of a path holds no slash. -/
theorem svn_relpath_basename_no_slash (path : String) :
    '/' ∉ (svn_relpath_basename path).data := by
  unfold svn_relpath_basename
  simp only [List.mem_reverse]
  intro hm
  have := List.mem_takeWhile_imp hm
  simp at this

/-- Joining a relative path and a component without slash gives a relative
path. -/
theorem canon_join (base b : String) (h : svn_relpath_canonicalize base = base)
    (hb : '/' ∉ b.data) :
    svn_relpath_canonicalize (svn_relpath_join base b) = svn_relpath_join base b := by
  have hh := head_of_canon base h
  unfold svn_relpath_join
  by_cases h1 : base = ""
  · simp only [h1, if_true]
    apply canon_of_head
    intro hc
    cases hd : b.data with
    | nil => rw [hd] at hc; simp at hc
    | cons c t =>
      rw [hd] at hc hb
      simp only [List.head?_cons, Option.some.injEq] at hc
      exact hb (by simp [hc])
  · simp only [h1, if_false]
    by_cases h2 : b = ""
    · simp only [h2, if_true]; exact h
    · simp only [h2, if_false]
      apply canon_of_head
      simp only [String.data_append]
      cases hd : base.data with
      | nil => exact absurd (String.ext hd) h1
      | cons c t =>
        rw [hd] at hh
        simpa using hh

/-- Joining a relative path and a last component gives a relative path. -/
theorem canon_join_basename (base path : String) (h : svn_relpath_canonicalize base = base) :
    svn_relpath_canonicalize (svn_relpath_join base (svn_relpath_basename path))
      = svn_relpath_join base (svn_relpath_basename path) :=
  canon_join base _ h (svn_relpath_basename_no_slash path)


/-- A lookup below the old length is not changed by an allocation. -/
theorem getElem?_alloc {α : Type} (l : List α) (a b : α) (i : Nat) (h : l[i]? = some a) :
    (l ++ [b])[i]? = some a := by
  rw [List.getElem?_append_left (lt_length_of_getElem? h)]
  exact h

/-- What `open_directory` returns under an allocated parent. -/
theorem open_directory_eq (s : edit_session) (path : String) (revision : Int)
    (parent : Nat) (pb : dir_baton) (h : s.dirs[parent]? = some pb) :
    open_directory path parent revision s =
      some ({ s with dirs := s.dirs ++ [
        { parent_dir_baton := some parent, added := false,
          abspath := svn_fspath__canonicalize path,
          copyfrom_path :=
            if ARE_VALID_COPY_ARGS pb.copyfrom_path pb.copyfrom_rev then
              pb.copyfrom_path.map (fun p =>
                svn_relpath_canonicalize (svn_relpath_join p (svn_relpath_basename path)))
            else none,
          copyfrom_rev :=
            if ARE_VALID_COPY_ARGS pb.copyfrom_path pb.copyfrom_rev then pb.copyfrom_rev
            else SVN_INVALID_REVNUM,
          is_copy := false, deleted_entries := [], props := none, deleted_props := none }] },
        s.dirs.length) := by
  cases hc : pb.copyfrom_path with
  | none => simp [open_directory, h, hc, make_dir_baton, ARE_VALID_COPY_ARGS]
  | some P =>
    cases hv : ARE_VALID_COPY_ARGS (some P) pb.copyfrom_rev <;>
      simp [open_directory, h, hc, hv, make_dir_baton]

/-- What `open_file` returns under an allocated parent. -/
theorem open_file_eq (s : edit_session) (path : String) (revision : Int)
    (parent : Nat) (pb : dir_baton) (h : s.dirs[parent]? = some pb) :
    open_file path parent revision s =
      some ({ s with files := s.files ++ [
        { pb := parent, path := path, props := none, deleted_props := none,
          copyfrom_path :=
            if ARE_VALID_COPY_ARGS pb.copyfrom_path pb.copyfrom_rev then
              pb.copyfrom_path.map (fun p => svn_relpath_join p (svn_relpath_basename path))
            else none,
          copyfrom_rev :=
            if ARE_VALID_COPY_ARGS pb.copyfrom_path pb.copyfrom_rev then pb.copyfrom_rev
            else 0,
          is_copy := false, delta_file := none, base_checksum := none }] },
        s.files.length) := by
  cases hc : pb.copyfrom_path with
  | none => simp [open_file, h, hc, ARE_VALID_COPY_ARGS]
  | some P =>
    cases hv : ARE_VALID_COPY_ARGS (some P) pb.copyfrom_rev <;>
      simp [open_file, h, hc, hv]

/-- What `add_directory` returns under an allocated parent. -/
theorem add_directory_eq (s : edit_session) (path : String) (parent : Nat)
    (copyfrom_path : Option String) (copyfrom_rev : Int) (pb : dir_baton)
    (h : s.dirs[parent]? = some pb) :
    add_directory path parent copyfrom_path copyfrom_rev s =
      some ({ s with dirs := s.dirs ++ [
        { parent_dir_baton := some parent, added := true,
          abspath := svn_fspath__canonicalize path,
          copyfrom_path := copyfrom_path.map svn_relpath_canonicalize,
          copyfrom_rev := copyfrom_rev,
          is_copy := ARE_VALID_COPY_ARGS copyfrom_path copyfrom_rev,
          deleted_entries := [], props := none, deleted_props := none }] },
        s.dirs.length) := by
  simp [add_directory, h, make_dir_baton]

/-! ## Properties of the editor (C21 to C27) -/

/-- C21. A file added as `a.txt` under the root, `apply_textdelta`, the window
`hello` and the final window given to the returned handler, then `close_file`:
the encoder is bound to the file baton's `delta_file`, which is `NULL`, so the
session's delta file stays empty and the record has `Text-content-length: 0`
and no delta bytes. -/
theorem apply_textdelta_not_bound_to_session_file :
    (do
      let (s, root) ← open_root 0 (new_session 3)
      let (s, fb) ← add_file "a.txt" root none SVN_INVALID_REVNUM s
      let (s, hb) ← apply_textdelta fb none s
      let s ← window_handler sample_encoder (some "hello") hb s
      let s1 ← window_handler sample_encoder none hb s
      let s2 ← close_file fb (some "5d41402abc4b2a76b9719d911017c592") s1
      pure (hb.apply_baton, s1.eb.delta_file, s2.eb.stream)
        : Option (Option Unit × String × String))
      = some (none, "",
          "Node-path: a.txt\nNode-kind: file\nNode-action: add\n"
          ++ "Node-copyfrom-rev: -1\nNode-copyfrom-path: (null)\n"
          ++ "Text-delta: true\nText-content-length: 0\n"
          ++ "Text-content-md5: 5d41402abc4b2a76b9719d911017c592\n\n\n") := by
  rfl

/-- C22, as stated, fails at its witness: under a parent added with copy source
`/old/p` at revision 5, `open_directory "d"` gives the child the copy source
`old/p/d` at revision 5, without the leading slash, and so does `open_file`. -/
theorem open_directory_copy_source_relative :
    (do
      let (s, p) ← add_directory "p" 0 (some "/old/p") 5 root_session
      let (s1, d) ← open_directory "d" p 4 s
      let (s2, _) ← open_file "d" p 4 s
      pure (s1.dirs.drop d |>.map (fun b => (b.copyfrom_path, b.copyfrom_rev)),
        s2.files.map (fun b => (b.copyfrom_path, b.copyfrom_rev)),
        s1.dirs.drop d |>.map (fun b => decide (b.copyfrom_path = some "/old/p/d")))
        : Option (List (Option String × Int) × List (Option String × Int) × List Bool))
      = some ([(some "old/p/d", 5)], [(some "old/p/d", 5)], [false]) := by
  rfl

/-- C22, amended. Under an allocated parent baton that holds a valid copy
source, a relative path `P` (which is how `make_dir_baton` stores it) and a
revision `R`, `open_directory` and `open_file` succeed for every child path and
give the child the copy source `P` joined with the last component of the child
path, at revision `R`, not marked added and not a copy.  Under a parent with no
valid copy source the child has no copy-source path. -/
theorem open_inherits_copy_source (s : edit_session) (path : String) (revision : Int)
    (parent : Nat) (pb : dir_baton) (h : s.dirs[parent]? = some pb) :
    (∀ P, pb.copyfrom_path = some P → 0 ≤ pb.copyfrom_rev →
      svn_relpath_canonicalize P = P →
      (∃ s1 d db, open_directory path parent revision s = some (s1, d) ∧
        s1.dirs[d]? = some db ∧
        db.copyfrom_path = some (svn_relpath_join P (svn_relpath_basename path)) ∧
        db.copyfrom_rev = pb.copyfrom_rev ∧ db.added = false ∧ db.is_copy = false) ∧
      (∃ s1 f fb, open_file path parent revision s = some (s1, f) ∧
        s1.files[f]? = some fb ∧
        fb.copyfrom_path = some (svn_relpath_join P (svn_relpath_basename path)) ∧
        fb.copyfrom_rev = pb.copyfrom_rev ∧ fb.is_copy = false)) ∧
    (ARE_VALID_COPY_ARGS pb.copyfrom_path pb.copyfrom_rev = false →
      (∃ s1 d db, open_directory path parent revision s = some (s1, d) ∧
        s1.dirs[d]? = some db ∧ db.copyfrom_path = none ∧
        db.copyfrom_rev = SVN_INVALID_REVNUM ∧ db.added = false ∧ db.is_copy = false) ∧
      (∃ s1 f fb, open_file path parent revision s = some (s1, f) ∧
        s1.files[f]? = some fb ∧ fb.copyfrom_path = none ∧ fb.is_copy = false)) := by
  rw [open_directory_eq s path revision parent pb h, open_file_eq s path revision parent pb h]
  constructor
  · intro P hP hR hcanon
    have hv : ARE_VALID_COPY_ARGS (some P) pb.copyfrom_rev = true := by
      simp [ARE_VALID_COPY_ARGS, SVN_IS_VALID_REVNUM, hR]
    simp only [hP, hv, if_true, Option.map_some', canon_join_basename P path hcanon]
    exact ⟨⟨_, _, _, rfl, List.getElem?_concat_length _ _, rfl, rfl, rfl, rfl⟩,
      ⟨_, _, _, rfl, List.getElem?_concat_length _ _, rfl, rfl, rfl⟩⟩
  · intro hv
    simp only [hv, Bool.false_eq_true, if_false]
    exact ⟨⟨_, _, _, rfl, List.getElem?_concat_length _ _, rfl, rfl, rfl, rfl⟩,
      ⟨_, _, _, rfl, List.getElem?_concat_length _ _, rfl, rfl⟩⟩


/-- C22, amended, at a concrete input: under the directory `p` added with copy
source `/old/p` at revision 5, which holds `old/p`, the children `p/d` get the
copy source `old/p/d` at revision 5. -/
theorem open_inherits_copy_source_witness :
    (∃ s1 d db, open_directory "p/d" 1 4 copied_dir_session = some (s1, d) ∧
        s1.dirs[d]? = some db ∧ db.copyfrom_path = some "old/p/d" ∧
        db.copyfrom_rev = 5 ∧ db.added = false ∧ db.is_copy = false) ∧
    (∃ s1 f fb, open_file "p/d" 1 4 copied_dir_session = some (s1, f) ∧
        s1.files[f]? = some fb ∧ fb.copyfrom_path = some "old/p/d" ∧
        fb.copyfrom_rev = 5 ∧ fb.is_copy = false) :=
  (open_inherits_copy_source copied_dir_session "p/d" 4 1 _ rfl).1 "old/p" rfl
    (by decide) (by decide)

/-- The example session `copied_dir_session` is `root_session` after
`add_directory`. -/
theorem add_directory_root_session :
    add_directory "p" 0 (some "/old/p") 5 root_session = some (copied_dir_session, 1) := by
  decide

/-- C23. Under an allocated parent baton, `add_directory` succeeds and returns
a new baton that is marked added and whose `is_copy` flag is true exactly when
a copy-source path is given and the copy-source revision is valid; the edit
baton (and so the output stream), the file batons and every directory baton
allocated before, the parent with its pending-delete set among them, are as
they were. -/
theorem add_directory_baton (s : edit_session) (path : String) (parent : Nat)
    (copyfrom_path : Option String) (copyfrom_rev : Int) (pb : dir_baton)
    (h : s.dirs[parent]? = some pb) :
    ∃ s1 d db, add_directory path parent copyfrom_path copyfrom_rev s = some (s1, d) ∧
      s1.dirs[d]? = some db ∧ db.added = true ∧
      (db.is_copy = true ↔ (copyfrom_path.isSome = true ∧ 0 ≤ copyfrom_rev)) ∧
      s1.eb = s.eb ∧ s1.files = s.files ∧
      s1.dirs[parent]? = some pb ∧
      (∀ (i : Nat) (b : dir_baton), s.dirs[i]? = some b → s1.dirs[i]? = some b) := by
  rw [add_directory_eq s path parent copyfrom_path copyfrom_rev pb h]
  refine ⟨_, _, _, rfl, List.getElem?_concat_length _ _, rfl, ?_, rfl, rfl,
    getElem?_alloc _ _ _ _ h, fun i b hb => getElem?_alloc _ _ _ _ hb⟩
  simp [ARE_VALID_COPY_ARGS, SVN_IS_VALID_REVNUM]

/-- C23 at a concrete input: `d` added with copy source `/old/d` at revision 5
under the root, which has `b.txt` pending. -/
theorem add_directory_baton_witness :
    ∃ s1 d db, add_directory "d" 0 (some "/old/d") 5 root_session_deleted = some (s1, d) ∧
      s1.dirs[d]? = some db ∧ db.added = true ∧
      (db.is_copy = true ↔ ((some "/old/d").isSome = true ∧ (0 : Int) ≤ 5)) ∧
      s1.eb = root_session_deleted.eb ∧ s1.files = root_session_deleted.files ∧
      s1.dirs[0]? = some
        { parent_dir_baton := none, added := false, abspath := "/", copyfrom_path := none,
          copyfrom_rev := -1, is_copy := false, deleted_entries := [("b.txt", 0)],
          props := none, deleted_props := none } ∧
      (∀ (i : Nat) (b : dir_baton),
        root_session_deleted.dirs[i]? = some b → s1.dirs[i]? = some b) :=
  add_directory_baton root_session_deleted "d" 0 (some "/old/d") 5 _ rfl


/-- The value of a C `long` is the integer itself within the range of `long`. -/
theorem long_wrap_of_range (n : Int) (h1 : -(2 ^ 63) ≤ n) (h2 : n < 2 ^ 63) :
    long_wrap n = n := by
  unfold long_wrap
  norm_num at h1 h2 ⊢
  omega

/-- The path the fetch functions use: the given path without one leading
slash. -/
theorem fetch_path_eq (path : String) :
    ∃ p : String,
      (match path.data with
        | '/' :: rest => String.mk rest
        | _ => path) = p ∧
      (path.data.head? = some '/' → path = "/" ++ p) ∧
      (path.data.head? ≠ some '/' → p = path) := by
  cases hd : path.data with
  | nil =>
    refine ⟨path, rfl, fun h => ?_, fun _ => rfl⟩
    simp at h
  | cons c t =>
    by_cases hc : c = '/'
    · subst hc
      refine ⟨String.mk t, rfl, fun _ => ?_, fun h => ?_⟩
      · apply String.ext
        simp [String.data_append, hd]
      · simp at h
    · refine ⟨path, ?_, fun h => ?_, fun _ => rfl⟩
      · split
        · rename_i rest heq
          injection heq with h1 h2
          exact absurd h1 hc
        · rfl
      · simp at h
        exact absurd h hc


/-- C24. For a session whose current revision is in the range of a C `long`
above its minimum, there are a path `p`, the given path with one leading slash
removed, and a revision `r`, the given base revision when it is valid and
otherwise the current revision minus one, such that for every data source each
of the three fetch functions makes its queries at `p` and `r` and returns what
the answers there determine. -/
theorem fetch_query_arguments (eb : dump_edit_baton) (path : String) (base_revision : Int)
    (hmin : -(2 ^ 63) < eb.current_revision) (hmax : eb.current_revision < 2 ^ 63) :
    ∃ (p : String) (r : Int),
      (path.data.head? = some '/' → path = "/" ++ p) ∧
      (path.data.head? ≠ some '/' → p = path) ∧
      (SVN_IS_VALID_REVNUM base_revision = true → r = base_revision) ∧
      (SVN_IS_VALID_REVNUM base_revision = false → r = eb.current_revision - 1) ∧
      ∀ (ra : svn_ra_session_t) (kind : String → svn_prop_kind_t) (unique_name : String),
        fetch_base_func ra unique_name eb path base_revision =
          (match ra.svn_ra_get_file p r with
           | Except.error err =>
             if err = SVN_ERR_FS_NOT_FOUND then Except.ok none else Except.error err
           | Except.ok _ => Except.ok (some unique_name)) ∧
        fetch_props_func ra kind eb path base_revision =
          (match ra.svn_ra_check_path p r with
           | Except.error err => Except.error err
           | Except.ok node_kind =>
             if node_kind = svn_node_file then
               match ra.svn_ra_get_file p r with
               | Except.error err => Except.error err
               | Except.ok res => Except.ok res.2
             else if node_kind = svn_node_dir then
               match ra.svn_ra_get_dir2 p r with
               | Except.error err => Except.error err
               | Except.ok props => Except.ok (svn_categorize_props kind props)
             else Except.ok []) ∧
        fetch_kind_func ra eb path base_revision =
          (match ra.svn_ra_check_path p r with
           | Except.error err => Except.error err
           | Except.ok node_kind => Except.ok (svn__kind_from_node_kind node_kind false)) := by
  obtain ⟨p, hp, h1, h2⟩ := fetch_path_eq path
  refine ⟨p, if !SVN_IS_VALID_REVNUM base_revision then long_wrap (eb.current_revision - 1)
    else base_revision, h1, h2, fun hv => by simp [hv], fun hv => ?_, fun ra kind name => ?_⟩
  · simp only [hv, Bool.not_false, if_true]
    exact long_wrap_of_range _ (by omega) (by omega)
  · subst hp
    exact ⟨rfl, rfl, rfl⟩

/-- C24 at a concrete input: `/a.txt` with no base revision in a session for
revision 3 is asked for as `a.txt` at revision 2, where the example data source
has a file with the property `color`. -/
theorem fetch_query_arguments_witness :
    (∃ (p : String) (r : Int),
      ("/a.txt".data.head? = some '/' → "/a.txt" = "/" ++ p) ∧
      ("/a.txt".data.head? ≠ some '/' → p = "/a.txt") ∧
      (SVN_IS_VALID_REVNUM (-1) = true → r = -1) ∧
      (SVN_IS_VALID_REVNUM (-1) = false → r = (new_session 3).eb.current_revision - 1) ∧
      ∀ (ra : svn_ra_session_t) (kind : String → svn_prop_kind_t) (unique_name : String),
        fetch_base_func ra unique_name (new_session 3).eb "/a.txt" (-1) =
          (match ra.svn_ra_get_file p r with
           | Except.error err =>
             if err = SVN_ERR_FS_NOT_FOUND then Except.ok none else Except.error err
           | Except.ok _ => Except.ok (some unique_name)) ∧
        fetch_props_func ra kind (new_session 3).eb "/a.txt" (-1) =
          (match ra.svn_ra_check_path p r with
           | Except.error err => Except.error err
           | Except.ok node_kind =>
             if node_kind = svn_node_file then
               match ra.svn_ra_get_file p r with
               | Except.error err => Except.error err
               | Except.ok res => Except.ok res.2
             else if node_kind = svn_node_dir then
               match ra.svn_ra_get_dir2 p r with
               | Except.error err => Except.error err
               | Except.ok props => Except.ok (svn_categorize_props kind props)
             else Except.ok []) ∧
        fetch_kind_func ra (new_session 3).eb "/a.txt" (-1) =
          (match ra.svn_ra_check_path p r with
           | Except.error err => Except.error err
           | Except.ok node_kind => Except.ok (svn__kind_from_node_kind node_kind false))) ∧
    fetch_base_func sample_ra_session "/tmp/base" (new_session 3).eb "/a.txt" (-1)
      = Except.ok (some "/tmp/base") ∧
    fetch_props_func sample_ra_session sample_property_kind (new_session 3).eb "/a.txt" (-1)
      = Except.ok [("color", "red")] ∧
    fetch_kind_func sample_ra_session (new_session 3).eb "/a.txt" (-1)
      = Except.ok svn_kind_file :=
  ⟨fetch_query_arguments (new_session 3).eb "/a.txt" (-1) (by decide) (by decide),
    rfl, rfl, rfl⟩

/-- C25. There are a path and a revision, the given path without one leading
slash and the resolved revision, such that for every data source:
`fetch_base_func` returns success with no file name exactly when the data
source's `get_file` there fails with `SVN_ERR_FS_NOT_FOUND`; any other error of
the data source is returned as that error; and when the data source succeeds
the file name of the temporary file is returned. -/
theorem fetch_base_func_result (unique_name : String) (eb : dump_edit_baton) (path : String)
    (base_revision : Int) :
    ∃ (p : String) (r : Int),
      (path.data.head? = some '/' → path = "/" ++ p) ∧
      (path.data.head? ≠ some '/' → p = path) ∧
      (SVN_IS_VALID_REVNUM base_revision = true → r = base_revision) ∧
      ∀ ra : svn_ra_session_t,
        (fetch_base_func ra unique_name eb path base_revision = Except.ok none ↔
          ra.svn_ra_get_file p r = Except.error SVN_ERR_FS_NOT_FOUND) ∧
        (∀ err, ra.svn_ra_get_file p r = Except.error err → err ≠ SVN_ERR_FS_NOT_FOUND →
          fetch_base_func ra unique_name eb path base_revision = Except.error err) ∧
        (∀ res, ra.svn_ra_get_file p r = Except.ok res →
          fetch_base_func ra unique_name eb path base_revision
            = Except.ok (some unique_name)) := by
  obtain ⟨p, hp, h1, h2⟩ := fetch_path_eq path
  refine ⟨p, if !SVN_IS_VALID_REVNUM base_revision then long_wrap (eb.current_revision - 1)
    else base_revision, h1, h2, fun hv => by simp [hv], fun ra => ?_⟩
  subst hp
  have he : fetch_base_func ra unique_name eb path base_revision =
      (match ra.svn_ra_get_file
          (match path.data with
            | '/' :: rest => String.mk rest
            | _ => path)
          (if !SVN_IS_VALID_REVNUM base_revision then long_wrap (eb.current_revision - 1)
           else base_revision) with
        | Except.error err =>
          if err = SVN_ERR_FS_NOT_FOUND then Except.ok none else Except.error err
        | Except.ok _ => Except.ok (some unique_name)) := rfl
  rw [he]
  cases hq : ra.svn_ra_get_file
      (match path.data with
        | '/' :: rest => String.mk rest
        | _ => path)
      (if !SVN_IS_VALID_REVNUM base_revision then long_wrap (eb.current_revision - 1)
       else base_revision) with
  | error e =>
    by_cases hne : e = SVN_ERR_FS_NOT_FOUND
    · simp [hne]
    · simp [hne]
  | ok v => simp


/-- The three outcomes of `fetch_base_func` on the example data source: a path
that is absent, a data source error, and a file that exists. -/
theorem fetch_base_func_examples :
    fetch_base_func sample_ra_session "/tmp/base" (new_session 3).eb "/b.txt" (-1)
      = Except.ok none ∧
    fetch_base_func sample_ra_session "/tmp/base" (new_session 3).eb "/b.txt" 9
      = Except.error 170000 ∧
    fetch_base_func sample_ra_session "/tmp/base" (new_session 3).eb "/a.txt" 2
      = Except.ok (some "/tmp/base") :=
  ⟨rfl, rfl, rfl⟩

/-- C26. Closing the root with `b.txt` pending writes the root's change record
and the delete record with no blank line between them: the line after
`Node-action: change` is `Node-path: b.txt`.  Closing the file `a.txt` with
`hello` in the delta file writes the delta bytes right after the
`Text-content-md5` header line, with no blank line between them.  Only the
delete record and the file record end with blank lines. -/
theorem records_not_separated_by_blank_line :
    (do
      let (s, root) ← open_root 0 (new_session 3)
      let s ← delete_entry "b.txt" 2 root s
      let s1 ← close_directory root s
      let s2 ← close_file 0 (some "5d41402abc4b2a76b9719d911017c592") root_session_file_delta
      pure (text_lines s1.eb.stream, text_lines s2.eb.stream)
        : Option (List String × List String))
      = some (["Node-path: ", "Node-kind: dir", "Node-action: change",
               "Node-path: b.txt", "Node-action: delete", "", "", ""],
              ["Node-path: a.txt", "Node-kind: file", "Node-action: add",
               "Node-copyfrom-rev: -1", "Node-copyfrom-path: (null)",
               "Text-delta: true", "Text-content-length: 5",
               "Text-content-md5: 5d41402abc4b2a76b9719d911017c592",
               "hello", "", ""]) := by
  rfl

/-- C27. Two allocated directory batons, in any two sessions, with the same
path and the same pending-delete keys up to enumeration order: `close_directory`
succeeds on both and appends the same own record (`Node-path`, `Node-kind: dir`,
`Node-action: change`, with no copy-source or property header) followed by the
same delete records up to order, one per pending key; with the same enumeration
order the bytes appended are the same.  Nothing else of the batons matters. -/
theorem close_directory_depends_on_path_and_deletes (s1 s2 : edit_session) (d1 d2 : Nat)
    (db1 db2 : dir_baton)
    (h1 : s1.dirs[d1]? = some db1) (h2 : s2.dirs[d2]? = some db2)
    (hpath : db1.abspath = db2.abspath)
    (hperm : (apr_hash_keys db1.deleted_entries).Perm (apr_hash_keys db2.deleted_entries)) :
    ∃ t1 t2 own dels1 dels2,
      close_directory d1 s1 = some t1 ∧ close_directory d2 s2 = some t2 ∧
      t1.eb.stream = s1.eb.stream ++ String.join (own :: dels1) ∧
      t2.eb.stream = s2.eb.stream ++ String.join (own :: dels2) ∧
      own = "Node-path: " ++ svn_relpath_canonicalize db1.abspath
        ++ "\nNode-kind: dir\nNode-action: change\n" ∧
      dels1 = (apr_hash_keys db1.deleted_entries).map (fun p =>
        "Node-path: " ++ svn_relpath_canonicalize p ++ "\nNode-action: delete\n\n\n") ∧
      dels1.Perm dels2 ∧
      (apr_hash_keys db1.deleted_entries = apr_hash_keys db2.deleted_entries →
        dels1 = dels2) := by
  refine ⟨_, _, "Node-path: " ++ svn_relpath_canonicalize db1.abspath
      ++ "\nNode-kind: dir\nNode-action: change\n",
    (apr_hash_keys db1.deleted_entries).map (fun p =>
      "Node-path: " ++ svn_relpath_canonicalize p ++ "\nNode-action: delete\n\n\n"),
    (apr_hash_keys db2.deleted_entries).map (fun p =>
      "Node-path: " ++ svn_relpath_canonicalize p ++ "\nNode-action: delete\n\n\n"),
    close_directory_eq s1 d1 db1 h1, close_directory_eq s2 d2 db2 h2, ?_, ?_, rfl, rfl,
    hperm.map _, fun he => by rw [he]⟩
  · simp only [string_join_cons, String.append_assoc]
  · simp only [string_join_cons, String.append_assoc, hpath]

/-- C27 at a concrete input: two batons for `/` that hold `a.txt` and `b.txt`
pending in different orders; the second is added, copied and has property
changes. -/
theorem close_directory_depends_on_path_and_deletes_witness :
    ∃ t1 t2 own dels1 dels2,
      close_directory 0 two_dirs_session = some t1 ∧
      close_directory 1 two_dirs_session = some t2 ∧
      t1.eb.stream = "" ++ String.join (own :: dels1) ∧
      t2.eb.stream = "" ++ String.join (own :: dels2) ∧
      own = "Node-path: \nNode-kind: dir\nNode-action: change\n" ∧
      dels1 = ["Node-path: a.txt\nNode-action: delete\n\n\n",
               "Node-path: b.txt\nNode-action: delete\n\n\n"] ∧
      dels1.Perm dels2 ∧
      (["a.txt", "b.txt"] = ["b.txt", "a.txt"] → dels1 = dels2) :=
  close_directory_depends_on_path_and_deletes two_dirs_session two_dirs_session 0 1 _ _
    rfl rfl rfl (List.Perm.swap _ _ _)

end DumpEditor
